import Mathlib

/-!
# static/js/main.js — session state, persistence and request handlers

A shallow embedding of the browser script `static/js/main.js`.

* JavaScript values are the type `JVal`; strings are Lean strings.
* The page is the record `State`: the two module-level variables, the values of
  the form controls the script reads, the loading overlay, `localStorage`, and a
  log (`events`) of the observable effects in program order (messages shown,
  requests sent, containers rendered, console errors).
* The host functions `JSON.parse` / `JSON.stringify` are not part of the script;
  they are a parameter (`Host`).
* An asynchronous handler receives the outcome of its network call as an
  argument (`NetResult`).
-/

set_option autoImplicit false

namespace MainJs

/-! ## JavaScript values -/

/-- The JavaScript values the script manipulates. Numbers are restricted to
integers (timestamps and counters); objects are association lists of their own
data properties in insertion order. -/
inductive JVal where
  | undefined
  | null
  | bool (b : Bool)
  | num (n : Int)
  | str (s : String)
  | arr (xs : List JVal)
  | obj (kvs : List (String × JVal))
  deriving Inhabited

/-- ToBoolean. -/
def JVal.truthy : JVal → Bool
  | .undefined => false
  | .null => false
  | .bool b => b
  | .num n => n != 0
  | .str s => s != ""
  | .arr _ => true
  | .obj _ => true

/-- Lookup of an own property in a property list. -/
def lookupProp (k : String) : List (String × JVal) → JVal
  | [] => .undefined
  | (k', v) :: rest => if k' = k then v else lookupProp k rest

/-- Assignment `o[k] = v` on a property list: an existing property keeps its
position, a new one is appended. -/
def assignProp (k : String) (v : JVal) : List (String × JVal) → List (String × JVal)
  | [] => [(k, v)]
  | (k', v') :: rest => if k' = k then (k', v) :: rest else (k', v') :: assignProp k v rest

/-- Property read `x[k]` / `x.k`. Reading a property of `null` or `undefined`
throws a TypeError (message `te`); primitives and arrays have none of the
property names the script uses, so the read gives `undefined`. Property names
are own data properties: the names the script uses (fixed field names, model ids
of the page) are not names on `Object.prototype`. -/
def JVal.get (te : String) (x : JVal) (k : String) : Except String JVal :=
  match x with
  | .undefined => .error te
  | .null => .error te
  | .obj kvs => .ok (lookupProp k kvs)
  | _ => .ok .undefined

/-- Property write `x[k] = v` as far as `JSON.stringify` can observe it
afterwards. On `null`/`undefined` it throws a TypeError; on a primitive the
write is dropped (the script is not in strict mode); on an array a property
under a model id is not serialised. -/
def JVal.set (te : String) (x : JVal) (k : String) (v : JVal) : Except String JVal :=
  match x with
  | .undefined => .error te
  | .null => .error te
  | .obj kvs => .ok (.obj (assignProp k v kvs))
  | other => .ok other

mutual
/-- ToString, used by string concatenation and by `element.value = x`. -/
def JVal.toStr : JVal → String
  | .undefined => "undefined"
  | .null => "null"
  | .bool true => "true"
  | .bool false => "false"
  | .num n => toString n
  | .str s => s
  | .arr xs => joinStr xs
  | .obj _ => "[object Object]"
termination_by structural x => x
/-- Array.prototype.join with the default separator: `null` and `undefined`
elements give the empty string. -/
def joinStr : List JVal → String
  | [] => ""
  | x :: rest =>
    (match x with
      | .undefined => ""
      | .null => ""
      | v => JVal.toStr v) ++ (if rest.isEmpty then "" else "," ++ joinStr rest)
termination_by structural x => x
end

mutual
/-- Equality of values is decidable. -/
def JVal.decEq : (a b : JVal) → Decidable (a = b)
  | .undefined, .undefined => isTrue rfl
  | .null, .null => isTrue rfl
  | .bool a, .bool b =>
    if h : a = b then isTrue (by rw [h]) else isFalse (by intro e; cases e; exact h rfl)
  | .num a, .num b =>
    if h : a = b then isTrue (by rw [h]) else isFalse (by intro e; cases e; exact h rfl)
  | .str a, .str b =>
    if h : a = b then isTrue (by rw [h]) else isFalse (by intro e; cases e; exact h rfl)
  | .arr xs, .arr ys =>
    match decEqList xs ys with
    | isTrue h => isTrue (by rw [h])
    | isFalse h => isFalse (by intro e; cases e; exact h rfl)
  | .obj xs, .obj ys =>
    match decEqProps xs ys with
    | isTrue h => isTrue (by rw [h])
    | isFalse h => isFalse (by intro e; cases e; exact h rfl)
  | .undefined, .null | .undefined, .bool _ | .undefined, .num _ | .undefined, .str _
  | .undefined, .arr _ | .undefined, .obj _ => isFalse (by intro e; cases e)
  | .null, .undefined | .null, .bool _ | .null, .num _ | .null, .str _
  | .null, .arr _ | .null, .obj _ => isFalse (by intro e; cases e)
  | .bool _, .undefined | .bool _, .null | .bool _, .num _ | .bool _, .str _
  | .bool _, .arr _ | .bool _, .obj _ => isFalse (by intro e; cases e)
  | .num _, .undefined | .num _, .null | .num _, .bool _ | .num _, .str _
  | .num _, .arr _ | .num _, .obj _ => isFalse (by intro e; cases e)
  | .str _, .undefined | .str _, .null | .str _, .bool _ | .str _, .num _
  | .str _, .arr _ | .str _, .obj _ => isFalse (by intro e; cases e)
  | .arr _, .undefined | .arr _, .null | .arr _, .bool _ | .arr _, .num _
  | .arr _, .str _ | .arr _, .obj _ => isFalse (by intro e; cases e)
  | .obj _, .undefined | .obj _, .null | .obj _, .bool _ | .obj _, .num _
  | .obj _, .str _ | .obj _, .arr _ => isFalse (by intro e; cases e)
termination_by structural x => x
/-- Equality of lists of values is decidable. -/
def decEqList : (xs ys : List JVal) → Decidable (xs = ys)
  | [], [] => isTrue rfl
  | [], _ :: _ => isFalse (by intro e; cases e)
  | _ :: _, [] => isFalse (by intro e; cases e)
  | x :: xs, y :: ys =>
    match JVal.decEq x y, decEqList xs ys with
    | isTrue h1, isTrue h2 => isTrue (by rw [h1, h2])
    | isFalse h, _ => isFalse (by intro e; cases e; exact h rfl)
    | _, isFalse h => isFalse (by intro e; cases e; exact h rfl)
termination_by structural x => x
/-- Equality of property lists is decidable. -/
def decEqProps : (xs ys : List (String × JVal)) → Decidable (xs = ys)
  | [], [] => isTrue rfl
  | [], _ :: _ => isFalse (by intro e; cases e)
  | _ :: _, [] => isFalse (by intro e; cases e)
  | (k, x) :: xs, (l, y) :: ys =>
    if hk : k = l then
      match JVal.decEq x y, decEqProps xs ys with
      | isTrue h1, isTrue h2 => isTrue (by rw [hk, h1, h2])
      | isFalse h, _ => isFalse (by intro e; cases e; exact h rfl)
      | _, isFalse h => isFalse (by intro e; cases e; exact h rfl)
    else isFalse (by intro e; cases e; exact hk rfl)
termination_by structural x => x
end

instance : DecidableEq JVal := JVal.decEq

/-- ECMAScript WhiteSpace and LineTerminator code points, the characters
`String.prototype.trim` removes. -/
def isJsWhiteSpace (c : Char) : Bool :=
  c.toNat ∈ [0x09, 0x0A, 0x0B, 0x0C, 0x0D, 0x20, 0xA0, 0x1680, 0x2028, 0x2029,
    0x202F, 0x205F, 0x3000, 0xFEFF] || (0x2000 ≤ c.toNat && c.toNat ≤ 0x200A)

/-- The method `String.prototype.trim` on a list of characters. -/
def trimChars (cs : List Char) : List Char :=
  (cs.dropWhile isJsWhiteSpace).rdropWhile isJsWhiteSpace

/-- The method `String.prototype.trim`. -/
def jsTrim (s : String) : String := ⟨trimChars s.data⟩

/-! ## Host functions and the network -/

/-- The host's JSON functions and the message of the TypeError the engine throws
when a property of `null`/`undefined` is accessed. `parse` returns the message
of the SyntaxError for a text that is not JSON. -/
structure Host where
  parse : String → Except String JVal
  stringify : JVal → String
  typeError : String

/-- What the awaited `fetch(...)` followed by `response.json()` delivers. -/
inductive NetResult where
  /-- The promise `fetch` returns rejects (transport failure). -/
  | failed (message : String)
  /-- The promise `response.json()` returns rejects (body is not JSON). -/
  | badBody (message : String)
  /-- The decoded body. -/
  | body (result : JVal)

/-! ## Page state -/

/-- Observable effects, logged in program order. -/
inductive Event where
  /-- The call `showMessage(text, type)`. -/
  | message (text : String) (type : String)
  /-- The call `fetch(url, ...)` with the given request body. -/
  | fetch (url : String) (body : JVal)
  /-- The assignment `container.innerHTML = ...`: which template, which values. -/
  | render (container : String) (view : String) (args : List String)
  /-- The call `console.error(label, e)`. -/
  | consoleError (label : String) (error : String)
  /-- The call `document.getElementById(id).focus()`. -/
  | focus (id : String)
  deriving DecidableEq

/-- The page as the script sees it. The controls read through a fixed id
(`articleTitle`, `apiKey`, ...) are part of the page; `modelCategory` is the
value of the checked radio button of that name; `containers` are the ids for
which `document.getElementById` finds an element when the id is an argument;
`display` holds `style.display` of the elements the script shows and hides, by
id; `apiKeyHelpText` and `apiKeyHelpClass` are `textContent` and `className` of
the element `apiKeyHelp`; `imageTransforms` holds `style.transform` of the image
elements of the page, by id. -/
structure State where
  uploadedTemplate : JVal := .null
  uploadedReference : JVal := .null
  articleTitle : String := ""
  articleContent : String := ""
  apiKey : String := ""
  apiKeyPrimary : String := ""
  apiKeySecondary : String := ""
  modelCategory : String := "domestic"
  aiModelDomestic : String := ""
  aiModelInternational : String := ""
  aiModelOpensource : String := ""
  imageSize : String := ""
  imageStyle : String := ""
  loading : Bool := false
  containers : List String := ["templatePreview", "referencePreview"]
  localStorage : List (String × String) := []
  events : List Event := []
  display : List (String × String) := []
  apiKeyHelpText : String := ""
  apiKeyHelpClass : String := ""
  imageTransforms : List (String × String) := []
  deriving DecidableEq

/-- The method `localStorage.getItem`: `none` is `null`. -/
def getItem (k : String) : List (String × String) → Option String
  | [] => none
  | (k', v) :: rest => if k' = k then some v else getItem k rest

/-- The method `localStorage.setItem`. -/
def setItem (k : String) (v : String) : List (String × String) → List (String × String)
  | [] => [(k, v)]
  | (k', v') :: rest => if k' = k then (k', v) :: rest else (k', v') :: setItem k v rest

/-- Append an effect to the log. -/
def State.emit (s : State) (e : Event) : State := { s with events := s.events ++ [e] }

def showLoading (s : State) : State := { s with loading := true }

def hideLoading (s : State) : State := { s with loading := false }

def showMessage (message : String) (type : String) (s : State) : State :=
  s.emit (.message message type)

/-- The request log: the urls and bodies of the `fetch` calls made so far. -/
def requests (s : State) : List (String × JVal) :=
  s.events.filterMap fun e => match e with
    | .fetch url body => some (url, body)
    | _ => none

/-- The messages shown so far with the given type. -/
def messagesOf (type : String) (s : State) : List String :=
  s.events.filterMap fun e => match e with
    | .message text t => if t = type then some text else none
    | _ => none

/-- The containers rendered so far. -/
def rendered (s : State) : List String :=
  s.events.filterMap fun e => match e with
    | .render c _ _ => some c
    | _ => none

/-- The assignment `element.value = x` on a text control stores the string of
`x`, with `null` stored as the empty string. -/
def JVal.toValue : JVal → String
  | .null => ""
  | v => v.toStr

/-! ## Statement blocks -/

/-- A block of JavaScript statements: from a state to the state reached, together
with the value produced or the message of the exception thrown. The state
reached is kept when an exception is thrown. -/
def Js (α : Type) : Type := State → Except String α × State

instance : Monad Js where
  pure a := fun s => (.ok a, s)
  bind m f := fun s =>
    match m s with
    | (.ok a, s1) => f a s1
    | (.error e, s1) => (.error e, s1)

/-- The statement `throw`. -/
def Js.throw {α : Type} (e : String) : Js α := fun s => (.error e, s)

/-- A statement that only updates the page. -/
def Js.update (f : State → State) : Js Unit := fun s => (.ok (), f s)

/-- The current page. -/
def Js.page : Js State := fun s => (.ok s, s)

/-- An expression that may throw. -/
def Js.eval {α : Type} (x : Except String α) : Js α := fun s => (x, s)

/-- The statement `try { body } catch (error) { handler(error.message) } finally { fin }`. -/
def Js.tryCatchFinally (body : Js Unit) (handler : String → Js Unit) (fin : Js Unit) : Js Unit :=
  fun s =>
    match body s with
    | (.ok (), s1) => fin s1
    | (.error e, s1) =>
      match handler e s1 with
      | (.ok (), s2) => fin s2
      | (.error e2, s2) =>
        match fin s2 with
        | (.ok (), s3) => (.error e2, s3)
        | (.error e3, s3) => (.error e3, s3)

/-- The statement `try { body } catch (e) { handler(e.message) }`. -/
def Js.tryCatch (body : Js Unit) (handler : String → Js Unit) : Js Unit :=
  fun s =>
    match body s with
    | (.ok (), s1) => (.ok (), s1)
    | (.error e, s1) => handler e s1

/-- The page after running a block. -/
def Js.after {α : Type} (m : Js α) (s : State) : State := (m s).2

/-- The message of the exception a block lets escape, if any. -/
def Js.escaped {α : Type} (m : Js α) (s : State) : Option String :=
  match (m s).1 with
  | .ok _ => none
  | .error e => some e

def message (text : String) (type : String) : Js Unit := Js.update (showMessage text type)

def emit (e : Event) : Js Unit := Js.update fun s => s.emit e

/-- The awaited `fetch(url, ...)` and `response.json()`: logs the request and
gives the decoded body, or throws. -/
def fetchJson (url : String) (body : JVal) (net : NetResult) : Js JVal := do
  emit (.fetch url body)
  match net with
  | .failed m => Js.throw m
  | .badBody m => Js.throw m
  | .body result => pure result

/-! ## Uploads and previews -/

/-- The function `uploadFile`. -/
def uploadFile (file : String) (type : String) (net : NetResult) : Js JVal :=
  fetchJson "/api/upload" (.obj [("file", .str file), ("type", .str type)]) net

/-- The later (effective) definition of `displayImagePreview`; throws when
there is no such container. -/
def displayImagePreview (h : Host) (containerId : String) (imageUrl : JVal) : Js Unit := do
  let s ← Js.page
  let imageId := containerId ++ "Image"
  if containerId ∈ s.containers then
    emit (.render containerId "imagePreview" [imageUrl.toStr, imageId])
  else Js.throw h.typeError

/-- The handler `handleTemplateUpload`; `file` is `event.target.files[0]`. -/
def handleTemplateUpload (h : Host) (file : Option String) (net : NetResult) : Js Unit :=
  match file with
  | none => pure ()
  | some file =>
    Js.tryCatchFinally
      (do
        Js.update showLoading
        let result ← uploadFile file "template" net
        if (← Js.eval (result.get h.typeError "success")).truthy then
          let filename ← Js.eval (result.get h.typeError "filename")
          Js.update fun s => { s with uploadedTemplate := filename }
          displayImagePreview h "templatePreview" (← Js.eval (result.get h.typeError "url"))
          message "模板上传成功" "success"
        else
          message ("模板上传失败: " ++ (← Js.eval (result.get h.typeError "error")).toStr) "error")
      (fun error => message ("上传失败: " ++ error) "error")
      (Js.update hideLoading)

/-- The handler `handleReferenceUpload`. -/
def handleReferenceUpload (h : Host) (file : Option String) (net : NetResult) : Js Unit :=
  match file with
  | none => pure ()
  | some file =>
    Js.tryCatchFinally
      (do
        Js.update showLoading
        let result ← uploadFile file "reference" net
        if (← Js.eval (result.get h.typeError "success")).truthy then
          let filename ← Js.eval (result.get h.typeError "filename")
          Js.update fun s => { s with uploadedReference := filename }
          displayImagePreview h "referencePreview" (← Js.eval (result.get h.typeError "url"))
          message "参考图上传成功" "success"
        else
          message ("参考图上传失败: " ++ (← Js.eval (result.get h.typeError "error")).toStr) "error")
      (fun error => message ("上传失败: " ++ error) "error")
      (Js.update hideLoading)

/-- The function `removeImage`; throws when there is no such container. -/
def removeImage (h : Host) (containerId : String) : Js Unit := do
  let s ← Js.page
  if containerId ∈ s.containers then
    emit (.render containerId "noImage" [])
  else Js.throw h.typeError
  if containerId = "templatePreview" then
    Js.update fun s => { s with uploadedTemplate := .null }
  else if containerId = "referencePreview" then
    Js.update fun s => { s with uploadedReference := .null }

/-! ## Main image -/

/-- The function `displayMainImageResult`: the preview is rendered first, the
information panel after its whole template has been evaluated. -/
def displayMainImageResult (h : Host) (result : JVal) : Js Unit := do
  let imageUrl ← Js.eval (result.get h.typeError "image_url")
  emit (.render "mainImagePreview" "mainImage" [imageUrl.toStr])
  let textData ← Js.eval (result.get h.typeError "text_data")
  let mainTitle ← Js.eval (textData.get h.typeError "main_title")
  let subtitle ← Js.eval (textData.get h.typeError "subtitle")
  match ← Js.eval (textData.get h.typeError "key_points") with
  | .arr points =>
    emit (.render "mainImageInfo" "mainImageInfo"
      (mainTitle.toStr :: subtitle.toStr :: points.map JVal.toStr))
  | _ => Js.throw h.typeError

/-- The handler `generateMainImage`. -/
def generateMainImage (h : Host) (net : NetResult) : Js Unit := do
  let s ← Js.page
  let title := jsTrim s.articleTitle
  let content := jsTrim s.articleContent
  if title = "" ∨ content = "" then
    message "请输入完整的标题和内容" "error"
  else if !s.uploadedTemplate.truthy then
    message "请先上传主图模板" "error"
  else
    Js.tryCatchFinally
      (do
        Js.update showLoading
        let result ← fetchJson "/api/generate-main-image"
          (.obj [("title", .str title), ("content", .str content),
            ("template", (← Js.page).uploadedTemplate),
            ("reference", (← Js.page).uploadedReference), ("use_enhanced", .bool true)]) net
        if (← Js.eval (result.get h.typeError "success")).truthy then
          displayMainImageResult h result
          message "主图生成成功！" "success"
        else
          message ("生成失败: " ++ (← Js.eval (result.get h.typeError "error")).toStr) "error")
      (fun error => message ("生成失败: " ++ error) "error")
      (Js.update hideLoading)

/-! ## Drafts -/

/-- The function `autoSaveDraft`; `now` is `new Date().getTime()`. -/
def autoSaveDraft (h : Host) (now : Int) : Js Unit := do
  let s ← Js.page
  let title := s.articleTitle
  let content := s.articleContent
  if title ≠ "" ∨ content ≠ "" then
    let draft := JVal.obj [("title", .str title), ("content", .str content), ("timestamp", .num now)]
    Js.update fun s =>
      { s with localStorage := setItem "ecommerce_tool_draft" (h.stringify draft) s.localStorage }

/-- The function `loadDraft`. -/
def loadDraft (h : Host) : Js Unit := do
  let s ← Js.page
  match getItem "ecommerce_tool_draft" s.localStorage with
  | none => pure ()
  | some draft =>
    if draft ≠ "" then
      Js.tryCatch
        (do
          let data ← Js.eval (h.parse draft)
          let title ← Js.eval (data.get h.typeError "title")
          if title.truthy then
            Js.update fun s => { s with articleTitle := title.toValue }
          let content ← Js.eval (data.get h.typeError "content")
          if content.truthy then
            Js.update fun s => { s with articleContent := content.toValue }
          message "已加载上次保存的草稿" "info")
        (fun e => emit (.consoleError "加载草稿失败:" e))

/-! ## AI model configuration -/

/-- The model id of the select of the checked category (the `switch` that opens
`handleModelSelectionChange`, `loadSavedApiConfigs` and `getCurrentApiConfig`). -/
def selectedModel (s : State) : String :=
  if s.modelCategory = "domestic" then s.aiModelDomestic
  else if s.modelCategory = "international" then s.aiModelInternational
  else if s.modelCategory = "opensource" then s.aiModelOpensource
  else ""

/-- The models that need two keys. -/
def dualKeyModels : List String := ["baidu_wenxin", "tencent_hunyuan"]

/-- The table `modelInfoMap` of `getModelInfo`. -/
def modelInfoMap : List (String × JVal) :=
  let info (name : String) (free : Bool) (url : String) : JVal :=
    .obj [("name", .str name), ("free", .bool free), ("url", .str url)]
  [("baidu_wenxin", info "百度文心一格" true "https://console.bce.baidu.com/"),
   ("ali_tongyi", info "阿里通义万相" true "https://dashscope.console.aliyun.com/"),
   ("zhipu_cogview", info "智谱CogView" true "https://open.bigmodel.cn/"),
   ("minimax_text2image", info "MiniMax文生图" true "https://api.minimax.chat/"),
   ("tencent_hunyuan", info "腾讯混元" true "https://console.cloud.tencent.com/"),
   ("dalle3", info "DALL-E 3" false "https://platform.openai.com/"),
   ("stable_diffusion", info "Stability AI" false "https://platform.stability.ai/"),
   ("huggingface_diffusion", info "Hugging Face" true "https://huggingface.co/"),
   ("replicate_sdxl", info "Replicate" true "https://replicate.com/")]

/-- The function `getModelInfo`: `undefined` for an id that is not in the table. -/
def getModelInfo (modelId : String) : JVal := lookupProp modelId modelInfoMap

/-- The value `getCurrentApiConfig` returns. -/
structure ApiConfig where
  model : String
  config : JVal

/-- The function `getCurrentApiConfig`. -/
def getCurrentApiConfig (s : State) : ApiConfig :=
  let selectedModel := selectedModel s
  let config : JVal :=
    if selectedModel ∈ dualKeyModels then
      .obj [("api_key", .str (jsTrim s.apiKeyPrimary)),
            ("secret_key", .str (jsTrim s.apiKeySecondary))]
    else
      .obj [("api_key", .str (jsTrim s.apiKey))]
  { model := selectedModel, config := config }

/-- The expression `localStorage.getItem('ai_api_configs') || '{}'`. -/
def storedConfigsText (s : State) : String :=
  match getItem "ai_api_configs" s.localStorage with
  | none => "\x7b\x7d"
  | some text => if text = "" then "\x7b\x7d" else text

/-- The function `saveApiConfig`. The read of `config.api_key` in the guard cannot
throw, `config` being the object `getCurrentApiConfig` has just built. -/
def saveApiConfig (h : Host) : Js Unit := do
  let apiConfig := getCurrentApiConfig (← Js.page)
  if apiConfig.model = "" ∨ !(← Js.eval (apiConfig.config.get h.typeError "api_key")).truthy then
    message "请先配置API密钥" "warning"
  else
    let savedConfigs ← Js.eval (h.parse (storedConfigsText (← Js.page)))
    let savedConfigs ← Js.eval (savedConfigs.set h.typeError apiConfig.model apiConfig.config)
    Js.update fun s =>
      { s with localStorage := setItem "ai_api_configs" (h.stringify savedConfigs) s.localStorage }
    message "API配置已保存" "success"

/-- The function `loadSavedApiConfigs`. -/
def loadSavedApiConfigs (h : Host) : Js Unit := do
  let savedConfigs ← Js.eval (h.parse (storedConfigsText (← Js.page)))
  let selectedModel := selectedModel (← Js.page)
  let config ← Js.eval (savedConfigs.get h.typeError selectedModel)
  if config.truthy then
    let apiKey ← Js.eval (config.get h.typeError "api_key")
    if apiKey.truthy then
      Js.update fun s => { s with apiKey := apiKey.toValue }
    let secretKey ← Js.eval (config.get h.typeError "secret_key")
    if secretKey.truthy then
      Js.update fun s => { s with apiKeyPrimary := apiKey.toValue }
      Js.update fun s => { s with apiKeySecondary := secretKey.toValue }

/-! ## AI image -/

/-- The function `displayAIImageResult`: the result card is created when absent,
then filled. -/
def displayAIImageResult (h : Host) (result : JVal) : Js Unit := do
  let imageUrl ← Js.eval (result.get h.typeError "image_url")
  let modelType ← Js.eval (result.get h.typeError "model_type")
  let prompt ← Js.eval (result.get h.typeError "prompt")
  emit (.render "aiImageResult" "aiImage" [imageUrl.toStr, modelType.toStr, prompt.toStr])

/-- The later (effective) definition of the handler `generateAIImage`. -/
def generateAIImage (h : Host) (net : NetResult) : Js Unit := do
  let s ← Js.page
  let title := jsTrim s.articleTitle
  let content := jsTrim s.articleContent
  let apiConfig := getCurrentApiConfig s
  let imageSize := s.imageSize
  let imageStyle := s.imageStyle
  if title = "" ∨ content = "" then
    message "请输入完整的标题和内容" "error"
  else
    if !(← Js.eval (apiConfig.config.get h.typeError "api_key")).truthy then
      message "请配置API密钥" "error"
    else
      Js.tryCatchFinally
        (do
          Js.update showLoading
          let result ← fetchJson "/api/generate-ai-image-enhanced"
            (.obj [("title", .str title), ("content", .str content),
              ("model_id", .str apiConfig.model), ("config", apiConfig.config),
              ("size", .str imageSize), ("style", .str imageStyle)]) net
          if (← Js.eval (result.get h.typeError "success")).truthy then
            displayAIImageResult h result
            let name ← Js.eval ((getModelInfo apiConfig.model).get h.typeError "name")
            message (name.toStr ++ " 生成成功！") "success"
          else
            message ("AI生成失败: " ++ (← Js.eval (result.get h.typeError "error")).toStr) "error")
        (fun error => message ("AI生成失败: " ++ error) "error")
        (Js.update hideLoading)

/-! ## Forbidden words and detail page -/

/-- The function `displayWordsCheckResult`. -/
def displayWordsCheckResult (h : Host) (result : JVal) : Js Unit := do
  if (← Js.eval (result.get h.typeError "has_forbidden")).truthy then
    match ← Js.eval (result.get h.typeError "forbidden_words") with
    | .arr words =>
      let cleanText ← Js.eval (result.get h.typeError "clean_text")
      emit (.render "wordsCheckResult" "wordsWarning" (cleanText.toStr :: words.map JVal.toStr))
    | _ => Js.throw h.typeError
  else
    emit (.render "wordsCheckResult" "wordsClean" [])

/-- The handler `checkForbiddenWords`. -/
def checkForbiddenWords (h : Host) (net : NetResult) : Js Unit := do
  let s ← Js.page
  let title := jsTrim s.articleTitle
  let content := jsTrim s.articleContent
  if title = "" ∧ content = "" then
    message "请输入标题或内容后再检查" "error"
  else
    Js.tryCatchFinally
      (do
        Js.update showLoading
        let text := title ++ " " ++ content
        let result ← fetchJson "/api/check-words" (.obj [("text", .str text)]) net
        displayWordsCheckResult h result)
      (fun error => message ("检查失败: " ++ error) "error")
      (Js.update hideLoading)

/-- The texts `sections.map(...)` interpolates: title and content of each
section, a TypeError for a section that is `null`. -/
def sectionTexts (te : String) : List JVal → Except String (List String)
  | [] => .ok []
  | sec :: rest => do
    let title ← sec.get te "title"
    let content ← sec.get te "content"
    let more ← sectionTexts te rest
    pure (title.toStr :: content.toStr :: more)

/-- The function `displayDetailPageResult`. -/
def displayDetailPageResult (h : Host) (detailContent : JVal) : Js Unit := do
  match ← Js.eval (detailContent.get h.typeError "sections") with
  | .arr sections =>
    let sectionsHtml ← Js.eval (sectionTexts h.typeError sections)
    match ← Js.eval (detailContent.get h.typeError "key_points") with
    | .arr points =>
      let title ← Js.eval (detailContent.get h.typeError "title")
      let introduction ← Js.eval (detailContent.get h.typeError "introduction")
      emit (.render "detailPagePreview" "detailPage"
        (title.toStr :: introduction.toStr :: (points.map JVal.toStr ++ sectionsHtml)))
    | _ => Js.throw h.typeError
  | _ => Js.throw h.typeError

/-- The handler `generateDetailPage`. -/
def generateDetailPage (h : Host) (net : NetResult) : Js Unit := do
  let s ← Js.page
  let title := jsTrim s.articleTitle
  let content := jsTrim s.articleContent
  if title = "" ∨ content = "" then
    message "请输入完整的标题和内容" "error"
  else
    Js.tryCatchFinally
      (do
        Js.update showLoading
        let result ← fetchJson "/api/generate-detail"
          (.obj [("title", .str title), ("content", .str content)]) net
        if (← Js.eval (result.get h.typeError "success")).truthy then
          displayDetailPageResult h (← Js.eval (result.get h.typeError "detail_content"))
          message "详情页生成成功！" "success"
        else
          message ("生成失败: " ++ (← Js.eval (result.get h.typeError "error")).toStr) "error")
      (fun error => message ("生成失败: " ++ error) "error")
      (Js.update hideLoading)

/-! ## Saving an AI image, testing the connection -/

/-- The handler `saveAIImage`. -/
def saveAIImage (h : Host) (imageUrl : String) (net : NetResult) : Js Unit :=
  Js.tryCatchFinally
    (do
      Js.update showLoading
      let result ← fetchJson "/api/save-ai-image" (.obj [("image_url", .str imageUrl)]) net
      if (← Js.eval (result.get h.typeError "success")).truthy then
        message "图片已保存到本地" "success"
        let filename ← Js.eval (result.get h.typeError "filename")
        Js.update fun s => { s with uploadedTemplate := filename }
      else
        message ("保存失败: " ++ (← Js.eval (result.get h.typeError "error")).toStr) "error")
    (fun error => message ("保存失败: " ++ error) "error")
    (Js.update hideLoading)

/-- The handler `testApiConnection`. The read of `config.api_key` in the guard
cannot throw, `config` being the object `getCurrentApiConfig` has just built. -/
def testApiConnection (h : Host) (net : NetResult) : Js Unit := do
  let apiConfig := getCurrentApiConfig (← Js.page)
  if apiConfig.model = "" ∨ !(← Js.eval (apiConfig.config.get h.typeError "api_key")).truthy then
    message "请先配置API密钥" "warning"
  else
    Js.tryCatchFinally
      (do
        Js.update showLoading
        let result ← fetchJson "/api/test-ai-connection"
          (.obj [("model_id", .str apiConfig.model), ("config", apiConfig.config)]) net
        if (← Js.eval (result.get h.typeError "success")).truthy then
          message "API连接测试成功！" "success"
        else
          message ("API连接测试失败: " ++ (← Js.eval (result.get h.typeError "error")).toStr)
            "error")
      (fun error => message ("连接测试失败: " ++ error) "error")
      (Js.update hideLoading)

/-! ## Template from an AI image, rotation -/

/-- The method `str.split('/')` on a list of characters. -/
def splitSlash : List Char → List (List Char)
  | [] => [[]]
  | c :: cs =>
    if c = '/' then [] :: splitSlash cs
    else
      match splitSlash cs with
      | [] => [[c]]
      | first :: rest => (c :: first) :: rest

/-- The expression `imageUrl.split('/').pop()`. -/
def lastSegment (imageUrl : String) : String := ⟨(splitSlash imageUrl.data).getLastD []⟩

/-- The function `useAsTemplate`. -/
def useAsTemplate (imageUrl : String) : Js Unit := do
  Js.update fun s => { s with uploadedTemplate := .str (lastSegment imageUrl) }
  message "已设置为主图模板" "success"

/-- The Number nearest to a natural number (round to nearest, ties to even):
every natural number up to `2 ^ 53` is a Number, a larger one keeps its 53
leading bits `q` and loses its `e` low bits. The rounded value `q * 2 ^ e`
reaches `2 ^ 1024` when `e` exceeds 971, or `e` is 971 and rounding carried `q`
to `2 ^ 53`; the Number is then `Infinity`, written `none`. -/
def toNumber (n : Nat) : Option Nat :=
  if n ≤ 2 ^ 53 then some n
  else
    let e := excess n n
    let q := n / 2 ^ e
    let r := n % 2 ^ e
    let q := if 2 ^ (e - 1) < r ∨ (r = 2 ^ (e - 1) ∧ q % 2 = 1) then q + 1 else q
    if 971 < e ∨ (e = 971 ∧ q = 2 ^ 53) then none else some (q * 2 ^ e)
where
  /-- The number of bits of `n` beyond the first 53. -/
  excess : Nat → Nat → Nat
    | 0, _ => 0
    | fuel + 1, n => if n < 2 ^ 53 then 0 else excess fuel (n / 2) + 1

/-- The rest of the text after the prefix, if the text starts with it. -/
def afterPrefix : List Char → List Char → Option (List Char)
  | [], cs => some cs
  | _ :: _, [] => none
  | p :: ps, c :: cs => if p = c then afterPrefix ps cs else none

/-- The class `\d` of a regular expression. -/
def isDecimalDigit (c : Char) : Bool := 48 ≤ c.toNat && c.toNat ≤ 57

/-- The digits captured when `/rotate\((\d+)deg\)/` matches at the start of the
text. -/
def rotateMatchHere (cs : List Char) : Option (List Char) :=
  match afterPrefix "rotate(".data cs with
  | none => none
  | some rest =>
    let digits := rest.takeWhile isDecimalDigit
    if digits = [] then none
    else
      match afterPrefix "deg)".data (rest.dropWhile isDecimalDigit) with
      | none => none
      | some _ => some digits

/-- The digits captured by `text.match(/rotate\((\d+)deg\)/)`, at the leftmost
position where the expression matches; `none` is `null`. -/
def rotateMatch : List Char → Option (List Char)
  | [] => none
  | c :: cs =>
    match rotateMatchHere (c :: cs) with
    | some digits => some digits
    | none => rotateMatch cs

/-- The integer a run of decimal digits denotes. -/
def digitsValue (digits : List Char) : Nat :=
  digits.foldl (fun n d => 10 * n + (d.toNat - 48)) 0

/-- The function `parseInt` on a run of decimal digits. -/
def parseInt (digits : List Char) : Option Nat := toNumber (digitsValue digits)

/-- The expression `(parseInt(currentRotation[1]) + 90) % 360` for the current
value of `style.transform`; `none` is `NaN`. -/
def newRotation (transform : String) : Option Nat :=
  let currentRotation := (rotateMatch transform.data).getD ['0']
  match parseInt currentRotation with
  | none => none
  | some r =>
    match toNumber (r + 90) with
    | none => none
    | some sum => some (sum % 360)

/-- The function `rotateImage`: nothing happens when there is no such image. -/
def rotateImage (imageId : String) : Js Unit := do
  let s ← Js.page
  match getItem imageId s.imageTransforms with
  | none => pure ()
  | some transform =>
    let angle :=
      match newRotation transform with
      | none => "NaN"
      | some r => toString r
    Js.update fun s =>
      { s with imageTransforms := setItem imageId ("rotate(" ++ angle ++ "deg)") s.imageTransforms }

/-! ## Form validation -/

/-- The property `length` of a string: its number of UTF-16 code units. -/
def jsLength (s : String) : Nat :=
  (s.data.map fun c => if c.toNat < 65536 then 1 else 2).sum

/-- The earlier definition of `validateForm`. -/
def validateFormEarlier : Js Bool := do
  let s ← Js.page
  let title := jsTrim s.articleTitle
  let content := jsTrim s.articleContent
  if title = "" then
    message "请输入文章标题" "error"
    return false
  if content = "" then
    message "请输入文章内容" "error"
    return false
  if jsLength title > 50 then
    message "标题长度不能超过50个字符" "error"
    return false
  if jsLength content < 50 then
    message "文章内容至少需要50个字符" "error"
    return false
  return true

/-- The later (effective) definition of `validateForm`. -/
def validateForm : Js Bool := do
  let s ← Js.page
  let title := jsTrim s.articleTitle
  let content := jsTrim s.articleContent
  if title = "" then
    message "请输入文章标题" "error"
    emit (.focus "articleTitle")
    return false
  if content = "" then
    message "请输入文章内容" "error"
    emit (.focus "articleContent")
    return false
  if jsLength title > 50 then
    message "标题长度不能超过50个字符" "error"
    emit (.focus "articleTitle")
    return false
  if jsLength content < 50 then
    message "文章内容至少需要50个字符" "error"
    emit (.focus "articleContent")
    return false
  return true

/-! ## Model category and model selection -/

/-- The assignment `document.getElementById(id).style.display = value`. -/
def setDisplay (id : String) (value : String) : Js Unit :=
  Js.update fun s => { s with display := setItem id value s.display }

/-- The function `updateApiConfigInterface`. -/
def updateApiConfigInterface (modelId : String) : Js Unit := do
  if modelId ∈ dualKeyModels then
    setDisplay "singleApiKey" "none"
    setDisplay "dualApiKeys" "block"
  else
    setDisplay "singleApiKey" "block"
    setDisplay "dualApiKeys" "none"

/-- The function `updateApiKeyHelp`. -/
def updateApiKeyHelp (h : Host) (modelId : String) : Js Unit := do
  let modelInfo := getModelInfo modelId
  if modelInfo.truthy then
    let name ← Js.eval (modelInfo.get h.typeError "name")
    Js.update fun s => { s with apiKeyHelpText := "请输入" ++ name.toStr ++ "的API密钥" }
    let free ← Js.eval (modelInfo.get h.typeError "free")
    Js.update fun s =>
      { s with apiKeyHelpClass := (if free.truthy then "text-success" else "text-warning") }

/-- The function `handleModelSelectionChange`. -/
def handleModelSelectionChange (h : Host) : Js Unit := do
  let selectedModel := selectedModel (← Js.page)
  updateApiConfigInterface selectedModel
  updateApiKeyHelp h selectedModel

/-- The function `handleModelCategoryChange`. -/
def handleModelCategoryChange (h : Host) : Js Unit := do
  let selectedCategory := (← Js.page).modelCategory
  setDisplay "domesticModels" "none"
  setDisplay "internationalModels" "none"
  setDisplay "opensourceModels" "none"
  if selectedCategory = "domestic" then
    setDisplay "domesticModels" "block"
  else if selectedCategory = "international" then
    setDisplay "internationalModels" "block"
  else if selectedCategory = "opensource" then
    setDisplay "opensourceModels" "block"
  handleModelSelectionChange h

/-! ## A reference host

An executable instance of `Host`, used to run the script on concrete pages. Its
JSON covers `null`, booleans, integers, strings with the two-character escapes,
arrays and objects. -/

namespace RefHost

/-- The text of a string literal: quotes, backslashes and the control characters
with a short escape are escaped. -/
def escapeChars : List Char → List Char
  | [] => []
  | c :: cs =>
    if c = '"' then '\\' :: '"' :: escapeChars cs
    else if c = '\\' then '\\' :: '\\' :: escapeChars cs
    else if c = '\n' then '\\' :: 'n' :: escapeChars cs
    else if c = '\r' then '\\' :: 'r' :: escapeChars cs
    else if c = '\t' then '\\' :: 't' :: escapeChars cs
    else c :: escapeChars cs

def quoteString (s : String) : String := "\"" ++ String.mk (escapeChars s.data) ++ "\""

mutual
/-- The function `JSON.stringify`: properties whose value is `undefined` are left
out of an object, and `undefined` is written `null` inside an array. -/
def stringify : JVal → String
  | .undefined => "undefined"
  | .null => "null"
  | .bool true => "true"
  | .bool false => "false"
  | .num n => toString n
  | .str s => quoteString s
  | .arr xs => "[" ++ elems xs ++ "]"
  | .obj kvs => "\x7b" ++ members kvs ++ "\x7d"
termination_by structural x => x
/-- The elements of an array, separated by commas. -/
def elems : List JVal → String
  | [] => ""
  | x :: rest =>
    (match x with
      | .undefined => "null"
      | v => stringify v) ++ (if rest.isEmpty then "" else "," ++ elems rest)
termination_by structural x => x
/-- The members of an object, separated by commas. -/
def members : List (String × JVal) → String
  | [] => ""
  | (k, v) :: rest =>
    let tail := members rest
    match v with
    | .undefined => tail
    | w => quoteString k ++ ":" ++ stringify w ++ (if tail = "" then "" else "," ++ tail)
termination_by structural x => x
end

def skipSpace (cs : List Char) : List Char :=
  cs.dropWhile fun c => c = ' ' ∨ c = '\n' ∨ c = '\r' ∨ c = '\t'

/-- The rest of a string literal after its opening quote. -/
def parseString : List Char → List Char → Option (String × List Char)
  | [], _ => none
  | c :: rest, acc =>
    if c = '"' then some (String.mk acc.reverse, rest)
    else if c = '\\' then
      match rest with
      | [] => none
      | e :: rest2 =>
        if e = '"' then parseString rest2 ('"' :: acc)
        else if e = '\\' then parseString rest2 ('\\' :: acc)
        else if e = '/' then parseString rest2 ('/' :: acc)
        else if e = 'n' then parseString rest2 ('\n' :: acc)
        else if e = 'r' then parseString rest2 ('\r' :: acc)
        else if e = 't' then parseString rest2 ('\t' :: acc)
        else none
    else if c.toNat < 32 then none
    else parseString rest (c :: acc)

/-- A non-empty run of decimal digits. -/
def parseDigits (cs : List Char) : Option (Nat × List Char) :=
  let ds := cs.takeWhile Char.isDigit
  if ds = [] then none
  else some (ds.foldl (fun n d => 10 * n + (d.toNat - 48)) 0, cs.dropWhile Char.isDigit)

def parseNumber (cs : List Char) : Option (JVal × List Char) :=
  match cs with
  | '-' :: rest => (parseDigits rest).map fun (n, r) => (.num (-(n : Int)), r)
  | _ => (parseDigits cs).map fun (n, r) => (.num n, r)

mutual
/-- A JSON value at the head of the text, with the text after it. -/
def parseValue : Nat → List Char → Option (JVal × List Char)
  | 0, _ => none
  | fuel + 1, cs =>
    match skipSpace cs with
    | 'n' :: 'u' :: 'l' :: 'l' :: rest => some (.null, rest)
    | 't' :: 'r' :: 'u' :: 'e' :: rest => some (.bool true, rest)
    | 'f' :: 'a' :: 'l' :: 's' :: 'e' :: rest => some (.bool false, rest)
    | '"' :: rest => (parseString rest []).map fun (str, r) => (.str str, r)
    | '[' :: rest =>
      match skipSpace rest with
      | ']' :: r => some (.arr [], r)
      | _ => (parseElems fuel rest).map fun (xs, r) => (.arr xs, r)
    | '\x7b' :: rest =>
      match skipSpace rest with
      | '\x7d' :: r => some (.obj [], r)
      | _ => (parseMembers fuel rest).map fun (kvs, r) => (.obj kvs, r)
    | other => parseNumber other
/-- The elements of a non-empty array, up to and including the closing bracket. -/
def parseElems : Nat → List Char → Option (List JVal × List Char)
  | 0, _ => none
  | fuel + 1, cs =>
    match parseValue fuel cs with
    | none => none
    | some (v, rest) =>
      match skipSpace rest with
      | ',' :: r => (parseElems fuel r).map fun (xs, r2) => (v :: xs, r2)
      | ']' :: r => some ([v], r)
      | _ => none
/-- The members of a non-empty object, up to and including the closing brace. A
repeated key keeps the position of its first and the value of its last
occurrence. -/
def parseMembers : Nat → List Char → Option (List (String × JVal) × List Char)
  | 0, _ => none
  | fuel + 1, cs =>
    match skipSpace cs with
    | '"' :: rest =>
      match parseString rest [] with
      | none => none
      | some (k, rest2) =>
        match skipSpace rest2 with
        | ':' :: rest3 =>
          match parseValue fuel rest3 with
          | none => none
          | some (v, rest4) =>
            match skipSpace rest4 with
            | ',' :: r => (parseMembers fuel r).map fun (kvs, r2) =>
                if kvs.any (fun kv => kv.1 = k) then
                  ((k, lookupProp k kvs) :: kvs.filter (fun kv => kv.1 ≠ k), r2)
                else ((k, v) :: kvs, r2)
            | '\x7d' :: r => some ([(k, v)], r)
            | _ => none
        | _ => none
    | _ => none
end

/-- The function `JSON.parse`: one value and nothing but white space after it. -/
def parse (text : String) : Except String JVal :=
  match parseValue (text.length + 1) text.data with
  | some (v, rest) => if skipSpace rest = [] then .ok v else .error "SyntaxError"
  | none => .error "SyntaxError"

end RefHost

/-- The reference host. -/
def refHost : Host :=
  { parse := RefHost.parse, stringify := RefHost.stringify, typeError := "TypeError" }

/-! ## Definitions used in the statements -/

/-- The key `getCurrentApiConfig` reports as `api_key`: the trimmed primary key
field for a dual-key model, the trimmed single key field otherwise. -/
def currentApiKey (s : State) : String :=
  if selectedModel s ∈ dualKeyModels then jsTrim s.apiKeyPrimary else jsTrim s.apiKey

/-- The guard `!apiConfig.model || !apiConfig.config.api_key` of `saveApiConfig`
does not reject the page. -/
def saveAccepts (s : State) : Prop := selectedModel s ≠ "" ∧ currentApiKey s ≠ ""

instance (s : State) : Decidable (saveAccepts s) := by
  unfold saveAccepts; exact inferInstance

/-- Whether a value is an object with an own property `k`. -/
def hasField (k : String) : JVal → Bool
  | .obj kvs => kvs.any fun kv => kv.1 = k
  | _ => false

/-- The data-model invariant on one entry of the persisted mapping: a
`secret_key` field is present exactly for a dual-key model id. -/
def entryOk (e : String × JVal) : Prop := hasField "secret_key" e.2 = true ↔ e.1 ∈ dualKeyModels

/-- The host's JSON functions round-trip the value `v`: the text written for it
is not empty and parses back to `v`. -/
def Host.roundTrips (h : Host) (v : JVal) : Prop :=
  h.stringify v ≠ "" ∧ h.parse (h.stringify v) = .ok v

/-- The object `saveApiConfig` writes back when the stored mapping is `kvs`. -/
def mergedConfigs (s : State) (kvs : List (String × JVal)) : JVal :=
  .obj (assignProp (selectedModel s) (getCurrentApiConfig s).config kvs)

/-- A block that makes no network call. -/
def Js.quiet {α : Type} (m : Js α) : Prop := ∀ s, requests (m s).2 = requests s

/-- The body of the request `generateMainImage` sends from page `s`. -/
def mainImageRequest (s : State) : JVal :=
  .obj [("title", .str (jsTrim s.articleTitle)), ("content", .str (jsTrim s.articleContent)),
    ("template", s.uploadedTemplate), ("reference", s.uploadedReference),
    ("use_enhanced", .bool true)]

/-- The body of the request `generateAIImage` sends from page `s`. -/
def aiImageRequest (s : State) : JVal :=
  .obj [("title", .str (jsTrim s.articleTitle)), ("content", .str (jsTrim s.articleContent)),
    ("model_id", .str (getCurrentApiConfig s).model), ("config", (getCurrentApiConfig s).config),
    ("size", .str s.imageSize), ("style", .str s.imageStyle)]

/-- A block that leaves the part `view` of the page as it was. -/
def Js.keeps {α β : Type} (view : State → β) (m : Js α) : Prop := ∀ s, view (m s).2 = view s

/-- A page with a stored single-key entry for `dalle3`, the dual-key model
`baidu_wenxin` selected and both of its key fields filled in. -/
def pageDualKey : State :=
  { aiModelDomestic := "baidu_wenxin", apiKeyPrimary := " a ", apiKeySecondary := "b",
    localStorage := [("ai_api_configs", "\x7b\"dalle3\":\x7b\"api_key\":\"x\"\x7d\x7d")] }

/-- The mapping stored on `pageDualKey`. -/
def storedDalle3 : List (String × JVal) := [("dalle3", .obj [("api_key", .str "x")])]

/-- The page after a reload: the fields are empty again, `baidu_wenxin` is
selected, and local storage is what `saveApiConfig` left on page `s`. -/
def reloaded (s : State) : State :=
  { aiModelDomestic := "baidu_wenxin",
    localStorage := ((saveApiConfig refHost).after s).localStorage }

/-- A page with the dual-key model `baidu_wenxin` selected, the primary key
filled in and the secondary key left empty; nothing is stored yet. -/
def pageEmptySecret : State :=
  { aiModelDomestic := "baidu_wenxin", apiKeyPrimary := "a", apiKeySecondary := "" }

/-- A page with the dual-key model `baidu_wenxin` selected and both key fields
filled in, on which the text stored under `ai_api_configs` is the JSON array
`[]`, not an object. -/
def pageArrayStored : State :=
  { aiModelDomestic := "baidu_wenxin", apiKeyPrimary := "a", apiKeySecondary := "b",
    localStorage := [("ai_api_configs", "[]")] }

/-- A page with a title and a content, the dual-key model `baidu_wenxin`
selected, the primary key filled in and the secondary key left empty. -/
def pageAiEmptySecret : State :=
  { articleTitle := "t", articleContent := "c", aiModelDomestic := "baidu_wenxin",
    apiKeyPrimary := "a", apiKeySecondary := "" }

/-- A page on which `saveApiConfig` would accept the configuration, with a text
that is not JSON stored under `ai_api_configs`. -/
def pageCorruptConfigs : State :=
  { aiModelDomestic := "baidu_wenxin", apiKeyPrimary := "a", apiKeySecondary := "b",
    localStorage := [("ai_api_configs", "\x7boops")] }

/-- A page with a text that is not JSON stored as the draft. -/
def pageCorruptDraft : State :=
  { articleTitle := "kept", localStorage := [("ecommerce_tool_draft", "\x7boops")] }

/-- A page on which a template and a reference have been uploaded. -/
def pageBothAssets : State :=
  { uploadedTemplate := .str "old-template.png", uploadedReference := .str "old-reference.png",
    containers := ["templatePreview", "referencePreview", "mainImagePreview"] }

/-- The body of a successful upload response. -/
def uploadOk : List (String × JVal) :=
  [("success", .bool true), ("filename", .str "new.png"), ("url", .str "/uploads/new.png")]

/-- A page ready for `generateAIImage`, whose active model select holds an id
that is not in the table of `getModelInfo`. -/
def pageUnknownModel : State :=
  { articleTitle := "t", articleContent := "c", aiModelDomestic := "my_model", apiKey := "k" }

/-- The body of a successful AI image response. -/
def aiImageOk : JVal :=
  .obj [("success", .bool true), ("image_url", .str "/ai/1.png"),
    ("model_type", .str "my_model"), ("prompt", .str "p")]

/-- A page ready for `generateMainImage`. -/
def pageMainImage : State :=
  { articleTitle := "t", articleContent := "c", uploadedTemplate := .str "template.png" }

/-- The body of a main image response that reports success and carries no
`text_data`. -/
def mainImageNoText : JVal := .obj [("success", .bool true), ("image_url", .str "/out/1.png")]

/-- The body of the request `checkForbiddenWords` sends from page `s`. -/
def wordsRequest (s : State) : JVal :=
  .obj [("text", .str (jsTrim s.articleTitle ++ " " ++ jsTrim s.articleContent))]

/-- How a handler leaves the loading indicator: hidden, or, when the handler
returned before showing it, as it was, with no request sent. -/
def endsHidden (m : Js Unit) (s : State) : Prop :=
  (m.after s).loading = false ∨
    ((m.after s).loading = s.loading ∧ requests (m.after s) = requests s)

/-- The checked category and the values of the three model selects. -/
def selects (s : State) : String × String × String × String :=
  (s.modelCategory, s.aiModelDomestic, s.aiModelInternational, s.aiModelOpensource)

/-- The page `s` with the given category checked and the given values in the
domestic, international and open-source model selects. -/
def withSelects (s : State) (category domestic international opensource : String) : State :=
  { s with
    modelCategory := category
    aiModelDomestic := domestic
    aiModelInternational := international
    aiModelOpensource := opensource }

/-- The draft `autoSaveDraft` writes from page `s` at time `now`. -/
def draftOf (s : State) (now : Int) : JVal :=
  .obj [("title", .str s.articleTitle), ("content", .str s.articleContent),
    ("timestamp", .num now)]

/-- A page with a title and no content. -/
def pageTitleOnly : State := { articleTitle := "Summer sale", articleContent := "" }

/-- The page after a reload: the fields are empty, local storage is what
`autoSaveDraft` left on page `s`. -/
def reloadedDraft (s : State) (now : Int) : State :=
  { localStorage := ((autoSaveDraft refHost now).after s).localStorage }

/-- The text `rotate(r deg)` as a template literal writes it for the integer
`r`. -/
def rotateText (r : Nat) : String := "rotate(" ++ toString r ++ "deg)"

/-- The angle `rotateImage` reads from a value of `style.transform`: the digits
the expression captures, 0 when it does not match. -/
def angleOf (transform : String) : Nat :=
  digitsValue ((rotateMatch transform.data).getD ['0'])

/-- A page with one image, whose transform is the given text. -/
def pageImage (transform : String) : State :=
  { imageTransforms := [("templatePreviewImage", transform)] }

/-! ## Storage lemmas -/

theorem getItem_setItem_same (k v : String) (st : List (String × String)) :
    getItem k (setItem k v st) = some v := by
  induction st with
  | nil => simp [setItem, getItem]
  | cons kv rest ih =>
    obtain ⟨k', v'⟩ := kv
    by_cases hk : k' = k
    · simp [setItem, getItem, hk]
    · simp [setItem, getItem, hk, ih]

theorem getItem_setItem_other (k k2 v : String) (st : List (String × String)) (hne : k2 ≠ k) :
    getItem k2 (setItem k v st) = getItem k2 st := by
  induction st with
  | nil => simp [setItem, getItem, hne.symm]
  | cons kv rest ih =>
    obtain ⟨k', v'⟩ := kv
    by_cases hk : k' = k
    · subst hk
      simp [setItem, getItem, hne.symm]
    · by_cases hk2 : k' = k2
      · subst hk2
        simp [setItem, getItem, hk]
      · simp [setItem, getItem, hk, hk2, ih]

/-! ## Property lists and trimming -/

theorem lookupProp_assignProp_same (k : String) (v : JVal) (kvs : List (String × JVal)) :
    lookupProp k (assignProp k v kvs) = v := by
  induction kvs with
  | nil => simp [assignProp, lookupProp]
  | cons kv rest ih =>
    obtain ⟨k', v'⟩ := kv
    by_cases hk : k' = k
    · simp [assignProp, lookupProp, hk]
    · simp [assignProp, lookupProp, hk, ih]

theorem lookupProp_assignProp_other (k k2 : String) (v : JVal) (kvs : List (String × JVal))
    (hne : k2 ≠ k) : lookupProp k2 (assignProp k v kvs) = lookupProp k2 kvs := by
  induction kvs with
  | nil => simp [assignProp, lookupProp, hne.symm]
  | cons kv rest ih =>
    obtain ⟨k', v'⟩ := kv
    by_cases hk : k' = k
    · subst hk
      simp [assignProp, lookupProp, hne.symm]
    · by_cases hk2 : k' = k2
      · subst hk2
        simp [assignProp, lookupProp, hk]
      · simp [assignProp, lookupProp, hk, hk2, ih]

theorem mem_assignProp (k : String) (v : JVal) (kvs : List (String × JVal))
    (e : String × JVal) (he : e ∈ assignProp k v kvs) : e = (k, v) ∨ e ∈ kvs := by
  induction kvs with
  | nil => simpa [assignProp] using he
  | cons kv rest ih =>
    obtain ⟨k', v'⟩ := kv
    by_cases hk : k' = k
    · subst hk
      simp only [assignProp, if_true, List.mem_cons] at he
      rcases he with he | he
      · exact Or.inl he
      · exact Or.inr (List.mem_cons_of_mem _ he)
    · simp only [assignProp, hk, if_false, List.mem_cons] at he
      rcases he with he | he
      · exact Or.inr (he ▸ List.mem_cons_self _ _)
      · rcases ih he with h1 | h1
        · exact Or.inl h1
        · exact Or.inr (List.mem_cons_of_mem _ h1)

theorem assignProp_mem (k : String) (v : JVal) (kvs : List (String × JVal)) :
    (k, v) ∈ assignProp k v kvs := by
  induction kvs with
  | nil => simp [assignProp]
  | cons kv rest ih =>
    obtain ⟨k', v'⟩ := kv
    by_cases hk : k' = k
    · simp [assignProp, hk]
    · simp [assignProp, hk, ih]

theorem keys_assignProp (k : String) (v : JVal) (kvs : List (String × JVal)) (k2 : String)
    (hne : k2 ≠ k) :
    k2 ∈ (assignProp k v kvs).map Prod.fst ↔ k2 ∈ kvs.map Prod.fst := by
  induction kvs with
  | nil => simp [assignProp, hne]
  | cons kv rest ih =>
    obtain ⟨k', v'⟩ := kv
    by_cases hk : k' = k
    · simp [assignProp, hk]
    · simp only [assignProp, hk, if_false, List.map_cons, List.mem_cons, ih]

theorem trimChars_idempotent (cs : List Char) : trimChars (trimChars cs) = trimChars cs := by
  unfold trimChars
  have hdrop : List.dropWhile isJsWhiteSpace
      (List.rdropWhile isJsWhiteSpace (List.dropWhile isJsWhiteSpace cs)) =
      List.rdropWhile isJsWhiteSpace (List.dropWhile isJsWhiteSpace cs) := by
    have hpre := List.rdropWhile_prefix isJsWhiteSpace (l := List.dropWhile isJsWhiteSpace cs)
    cases hy : List.rdropWhile isJsWhiteSpace (List.dropWhile isJsWhiteSpace cs) with
    | nil => simp
    | cons a rest =>
      rw [hy] at hpre
      obtain ⟨t, ht⟩ := hpre
      have hne : List.dropWhile isJsWhiteSpace cs ≠ [] := by
        rw [← ht]; simp
      have hhead := List.head_dropWhile_not isJsWhiteSpace cs hne
      have ha : (List.dropWhile isJsWhiteSpace cs).head hne = a := by
        simp [← ht]
      rw [ha] at hhead
      simp [hhead]
  rw [hdrop, List.rdropWhile_idempotent]

theorem jsTrim_idempotent (x : String) : jsTrim (jsTrim x) = jsTrim x := by
  simp [jsTrim, trimChars_idempotent]

/-! ## Saving an API configuration -/

theorem getCurrentApiConfig_model (s : State) : (getCurrentApiConfig s).model = selectedModel s :=
  rfl

theorem getCurrentApiConfig_apiKey (te : String) (s : State) :
    (getCurrentApiConfig s).config.get te "api_key" = .ok (.str (currentApiKey s)) := by
  unfold getCurrentApiConfig currentApiKey
  by_cases hd : selectedModel s ∈ dualKeyModels
  · simp [hd, JVal.get, lookupProp]
  · simp [hd, JVal.get, lookupProp]

theorem getCurrentApiConfig_entryOk (s : State) :
    entryOk (selectedModel s, (getCurrentApiConfig s).config) := by
  unfold getCurrentApiConfig entryOk
  by_cases hd : selectedModel s ∈ dualKeyModels
  · simp [hd, hasField]
  · simp [hd, hasField]

/-- What `saveApiConfig` does on an accepted page whose stored text parses to an
object: the entry of the selected model is assigned, the object is written
back, and the success message is shown. -/
theorem saveApiConfig_accepted (h : Host) (s : State) (kvs : List (String × JVal))
    (hAcc : saveAccepts s) (hParse : h.parse (storedConfigsText s) = .ok (.obj kvs)) :
    saveApiConfig h s = (.ok (), showMessage "API配置已保存" "success"
      { s with localStorage := (setItem "ai_api_configs"
          (h.stringify (.obj (assignProp (selectedModel s) (getCurrentApiConfig s).config kvs)))
          s.localStorage) }) := by
  obtain ⟨hm, hk⟩ := hAcc
  simp [saveApiConfig, bind, Js.page, Js.eval, Js.update, message, getCurrentApiConfig_apiKey,
    getCurrentApiConfig_model, hm, hk, JVal.truthy, hParse, JVal.set]

/-- What `saveApiConfig` does on a rejected page: only the warning is shown. -/
theorem saveApiConfig_rejected (h : Host) (s : State) (hRej : ¬ saveAccepts s) :
    saveApiConfig h s = (.ok (), showMessage "请先配置API密钥" "warning" s) := by
  unfold saveAccepts at hRej
  by_cases hm : selectedModel s = ""
  · simp [saveApiConfig, bind, Js.page, Js.eval, message, getCurrentApiConfig_apiKey,
      getCurrentApiConfig_model, hm, Js.update]
  · have hk : currentApiKey s = "" := by
      by_contra hk
      exact hRej ⟨hm, hk⟩
    simp [saveApiConfig, bind, Js.page, Js.eval, message, getCurrentApiConfig_apiKey,
      getCurrentApiConfig_model, hk, JVal.truthy, Js.update]

theorem storedConfigsText_setItem (text : String) (s : State) (hne : text ≠ "") :
    storedConfigsText { s with localStorage := setItem "ai_api_configs" text s.localStorage } =
      text := by
  simp [storedConfigsText, getItem_setItem_same, hne]

theorem showMessage_localStorage (text type : String) (s : State) :
    (showMessage text type s).localStorage = s.localStorage := rfl

theorem storedConfigsText_congr (s t : State) (hst : s.localStorage = t.localStorage) :
    storedConfigsText s = storedConfigsText t := by
  simp [storedConfigsText, hst]

/-- After an accepted save the stored text is the text of the merged object. -/
theorem storedConfigsText_after_save (h : Host) (s : State) (kvs : List (String × JVal))
    (hAcc : saveAccepts s) (hParse : h.parse (storedConfigsText s) = .ok (.obj kvs))
    (hRound : h.roundTrips (mergedConfigs s kvs)) :
    storedConfigsText ((saveApiConfig h).after s) = h.stringify (mergedConfigs s kvs) := by
  rw [Js.after, saveApiConfig_accepted h s kvs hAcc hParse]
  rw [storedConfigsText_congr _ _ (showMessage_localStorage _ _ _)]
  exact storedConfigsText_setItem _ s hRound.1

/-- Loading a stored single-key entry `{api_key: a}` with `a` not empty fills
the single key field. -/
theorem loadSavedApiConfigs_single (h : Host) (p : State) (kvs : List (String × JVal))
    (a : String) (hParse : h.parse (storedConfigsText p) = .ok (.obj kvs))
    (hEntry : lookupProp (selectedModel p) kvs = .obj [("api_key", .str a)]) (ha : a ≠ "") :
    loadSavedApiConfigs h p = (.ok (), { p with apiKey := a }) := by
  simp [loadSavedApiConfigs, bind, Js.page, Js.eval, Js.update, hParse, JVal.get, hEntry,
    JVal.truthy, lookupProp, ha, JVal.toValue, JVal.toStr, pure]

/-- Loading a stored dual-key entry `{api_key: a, secret_key: b}` with `a` not
empty: the key fields are filled when `b` is not empty, and only the single key
field is when `b` is empty. -/
theorem loadSavedApiConfigs_dual (h : Host) (p : State) (kvs : List (String × JVal))
    (a b : String) (hParse : h.parse (storedConfigsText p) = .ok (.obj kvs))
    (hEntry : lookupProp (selectedModel p) kvs =
      .obj [("api_key", .str a), ("secret_key", .str b)]) (ha : a ≠ "") :
    loadSavedApiConfigs h p =
      (.ok (), if b = "" then { p with apiKey := a }
        else { p with apiKey := a, apiKeyPrimary := a, apiKeySecondary := b }) := by
  by_cases hb : b = ""
  · simp [loadSavedApiConfigs, bind, Js.page, Js.eval, Js.update, hParse, JVal.get, hEntry,
      JVal.truthy, lookupProp, ha, hb, JVal.toValue, JVal.toStr, pure]
  · simp [loadSavedApiConfigs, bind, Js.page, Js.eval, Js.update, hParse, JVal.get, hEntry,
      JVal.truthy, lookupProp, ha, hb, JVal.toValue, JVal.toStr, pure]

/-! ## Blocks and the request log -/

theorem Js.page_bind {β : Type} (f : State → Js β) (s : State) : (Js.page >>= f) s = f s s := rfl

theorem Js.update_bind {β : Type} (g : State → State) (f : Unit → Js β) (s : State) :
    (Js.update g >>= f) s = f () (g s) := rfl

theorem Js.eval_ok_bind {α β : Type} (a : α) (f : α → Js β) (s : State) :
    (Js.eval (.ok a) >>= f) s = f a s := rfl

theorem Js.eval_error_bind {α β : Type} (e : String) (f : α → Js β) (s : State) :
    (Js.eval (.error e : Except String α) >>= f) s = (.error e, s) := rfl

theorem Js.quiet_pure {α : Type} (a : α) : Js.quiet (pure a : Js α) := fun _ => rfl

theorem Js.quiet_throw {α : Type} (e : String) : Js.quiet (Js.throw e : Js α) := fun _ => rfl

theorem Js.quiet_eval {α : Type} (x : Except String α) : Js.quiet (Js.eval x) := fun _ => rfl

theorem Js.quiet_page : Js.quiet Js.page := fun _ => rfl

theorem Js.quiet_update (f : State → State) (hf : ∀ s, (f s).events = s.events) :
    Js.quiet (Js.update f) := by
  intro s
  simp [Js.update, requests, hf]

theorem quiet_message (text type : String) : Js.quiet (message text type) := by
  intro s
  simp [message, Js.update, showMessage, State.emit, requests]

theorem quiet_render (c v : String) (args : List String) :
    Js.quiet (emit (.render c v args)) := by
  intro s
  simp [emit, Js.update, State.emit, requests]

theorem quiet_consoleError (label e : String) : Js.quiet (emit (.consoleError label e)) := by
  intro s
  simp [emit, Js.update, State.emit, requests]

/-- A block that adds the requests `rs` on page `s`, followed by blocks that make
no network call, adds the requests `rs`. -/
theorem Js.requests_bind {α β : Type} (m : Js α) (f : α → Js β) (s : State)
    (rs : List (String × JVal)) (hm : requests (m s).2 = requests s ++ rs)
    (hf : ∀ a, (f a).quiet) : requests ((m >>= f) s).2 = requests s ++ rs := by
  show requests (match m s with
    | (.ok a, s1) => f a s1
    | (.error e, s1) => (.error e, s1)).2 = requests s ++ rs
  rcases hms : m s with ⟨r, s1⟩
  rw [hms] at hm
  cases r with
  | error e => exact hm
  | ok a => exact (hf a s1).trans hm

theorem Js.quiet_bind {α β : Type} (m : Js α) (f : α → Js β) (hm : m.quiet)
    (hf : ∀ a, (f a).quiet) : Js.quiet (m >>= f) := by
  intro s
  have h := Js.requests_bind m f s [] (by simpa using hm s) hf
  simpa using h

/-- The requests a `try` block adds are those its body adds, when neither the
handler nor the `finally` block makes a network call. -/
theorem Js.requests_tryCatchFinally (body : Js Unit) (handler : String → Js Unit)
    (fin : Js Unit) (s : State) (rs : List (String × JVal))
    (hb : requests (body s).2 = requests s ++ rs) (hh : ∀ e, (handler e).quiet)
    (hfin : fin.quiet) :
    requests (Js.tryCatchFinally body handler fin s).2 = requests s ++ rs := by
  unfold Js.tryCatchFinally
  rcases hbs : body s with ⟨r, s1⟩
  rw [hbs] at hb
  cases r with
  | ok u =>
    simp only
    exact (hfin s1).trans hb
  | error e =>
    simp only
    have h2 := hh e s1
    rcases hhs : handler e s1 with ⟨r2, s2⟩
    rw [hhs] at h2
    have h3 := hfin s2
    cases r2 with
    | ok u => simp only; exact h3.trans (h2.trans hb)
    | error e2 =>
      simp only
      rcases hfs : fin s2 with ⟨r3, s3⟩
      rw [hfs] at h3
      cases r3 with
      | ok u => exact h3.trans (h2.trans hb)
      | error e3 => exact h3.trans (h2.trans hb)

theorem fetchJson_requests (url : String) (body : JVal) (net : NetResult) (s : State) :
    requests (fetchJson url body net s).2 = requests s ++ [(url, body)] := by
  cases net <;> simp [fetchJson, bind, emit, Js.update, State.emit, requests, Js.throw, pure]

theorem quiet_displayMainImageResult (h : Host) (result : JVal) :
    Js.quiet (displayMainImageResult h result) := by
  unfold displayMainImageResult
  refine Js.quiet_bind _ _ (Js.quiet_eval _) fun imageUrl => ?_
  refine Js.quiet_bind _ _ (quiet_render _ _ _) fun _ => ?_
  refine Js.quiet_bind _ _ (Js.quiet_eval _) fun textData => ?_
  refine Js.quiet_bind _ _ (Js.quiet_eval _) fun mainTitle => ?_
  refine Js.quiet_bind _ _ (Js.quiet_eval _) fun subtitle => ?_
  refine Js.quiet_bind _ _ (Js.quiet_eval _) fun keyPoints => ?_
  split
  · exact quiet_render _ _ _
  · exact Js.quiet_throw _

theorem quiet_displayAIImageResult (h : Host) (result : JVal) :
    Js.quiet (displayAIImageResult h result) := by
  unfold displayAIImageResult
  refine Js.quiet_bind _ _ (Js.quiet_eval _) fun imageUrl => ?_
  refine Js.quiet_bind _ _ (Js.quiet_eval _) fun modelType => ?_
  refine Js.quiet_bind _ _ (Js.quiet_eval _) fun prompt => ?_
  exact quiet_render _ _ _

theorem quiet_hideLoading : Js.quiet (Js.update hideLoading) :=
  Js.quiet_update _ fun _ => rfl

/-- With a title, a content and a template, `generateMainImage` sends exactly
one request, whatever the network delivers. -/
theorem generateMainImage_sends (h : Host) (net : NetResult) (s : State)
    (ht : jsTrim s.articleTitle ≠ "") (hc : jsTrim s.articleContent ≠ "")
    (hu : s.uploadedTemplate.truthy = true) :
    requests ((generateMainImage h net).after s) =
      requests s ++ [("/api/generate-main-image", mainImageRequest s)] := by
  unfold generateMainImage Js.after
  rw [Js.page_bind]
  simp only [ht, hc, or_self, if_false, hu, Bool.not_true, Bool.false_eq_true]
  apply Js.requests_tryCatchFinally
  · rw [Js.update_bind, Js.page_bind, Js.page_bind]
    apply Js.requests_bind
    · exact fetchJson_requests _ _ _ _
    · intro result
      refine Js.quiet_bind _ _ (Js.quiet_eval _) fun success => ?_
      split
      · exact Js.quiet_bind _ _ (quiet_displayMainImageResult _ _) fun _ => quiet_message _ _
      · exact Js.quiet_bind _ _ (Js.quiet_eval _) fun _ => quiet_message _ _
  · intro e
    exact quiet_message _ _
  · exact quiet_hideLoading

/-- Without a title or a content, `generateMainImage` only shows an error. -/
theorem generateMainImage_incomplete (h : Host) (net : NetResult) (s : State)
    (hn : jsTrim s.articleTitle = "" ∨ jsTrim s.articleContent = "") :
    (generateMainImage h net).after s = showMessage "请输入完整的标题和内容" "error" s := by
  unfold generateMainImage Js.after
  rw [Js.page_bind]
  simp only [hn, if_true]
  rfl

/-- Without a template, `generateMainImage` only shows an error. -/
theorem generateMainImage_no_template (h : Host) (net : NetResult) (s : State)
    (ht : jsTrim s.articleTitle ≠ "") (hc : jsTrim s.articleContent ≠ "")
    (hu : s.uploadedTemplate.truthy = false) :
    (generateMainImage h net).after s = showMessage "请先上传主图模板" "error" s := by
  unfold generateMainImage Js.after
  rw [Js.page_bind]
  simp only [ht, hc, or_self, if_false, hu, Bool.not_false, if_true]
  rfl

theorem requests_showMessage (text type : String) (s : State) :
    requests (showMessage text type s) = requests s := by
  simp [showMessage, State.emit, requests]

/-- With a title, a content and an api_key, `generateAIImage` sends exactly one
request, whatever the network delivers. -/
theorem generateAIImage_sends (h : Host) (net : NetResult) (s : State)
    (ht : jsTrim s.articleTitle ≠ "") (hc : jsTrim s.articleContent ≠ "")
    (hk : currentApiKey s ≠ "") :
    requests ((generateAIImage h net).after s) =
      requests s ++ [("/api/generate-ai-image-enhanced", aiImageRequest s)] := by
  have hb : (JVal.str (currentApiKey s)).truthy = true := by simpa [JVal.truthy] using hk
  unfold generateAIImage Js.after
  rw [Js.page_bind]
  simp only [getCurrentApiConfig_apiKey, Js.eval_ok_bind, ht, hc, or_self, if_false, hb,
    Bool.not_true, Bool.false_eq_true]
  apply Js.requests_tryCatchFinally
  · rw [Js.update_bind]
    apply Js.requests_bind
    · exact fetchJson_requests _ _ _ _
    · intro result
      refine Js.quiet_bind _ _ (Js.quiet_eval _) fun success => ?_
      split
      · refine Js.quiet_bind _ _ (quiet_displayAIImageResult _ _) fun _ => ?_
        exact Js.quiet_bind _ _ (Js.quiet_eval _) fun _ => quiet_message _ _
      · exact Js.quiet_bind _ _ (Js.quiet_eval _) fun _ => quiet_message _ _
  · intro e
    exact quiet_message _ _
  · exact quiet_hideLoading

/-- Without a title or a content, `generateAIImage` only shows an error. -/
theorem generateAIImage_incomplete (h : Host) (net : NetResult) (s : State)
    (hn : jsTrim s.articleTitle = "" ∨ jsTrim s.articleContent = "") :
    (generateAIImage h net).after s = showMessage "请输入完整的标题和内容" "error" s := by
  unfold generateAIImage Js.after
  rw [Js.page_bind]
  simp only [getCurrentApiConfig_apiKey, Js.eval_ok_bind, hn, if_true]
  rfl

/-- Without an api_key, `generateAIImage` only shows an error. -/
theorem generateAIImage_no_key (h : Host) (net : NetResult) (s : State)
    (ht : jsTrim s.articleTitle ≠ "") (hc : jsTrim s.articleContent ≠ "")
    (hk : currentApiKey s = "") :
    (generateAIImage h net).after s = showMessage "请配置API密钥" "error" s := by
  have hb : (JVal.str (currentApiKey s)).truthy = false := by simp [JVal.truthy, hk]
  unfold generateAIImage Js.after
  rw [Js.page_bind]
  simp only [getCurrentApiConfig_apiKey, Js.eval_ok_bind, ht, hc, or_self, if_false, hb,
    Bool.not_false, if_true]
  rfl

/-- On a stored text the host cannot parse, an accepted `saveApiConfig` lets the
SyntaxError escape and leaves the page as it was. -/
theorem saveApiConfig_corrupt (h : Host) (s : State) (e : String) (hAcc : saveAccepts s)
    (hParse : h.parse (storedConfigsText s) = .error e) :
    saveApiConfig h s = (.error e, s) := by
  obtain ⟨hm, hk⟩ := hAcc
  have hb : (JVal.str (currentApiKey s)).truthy = true := by simpa [JVal.truthy] using hk
  simp [saveApiConfig, bind, Js.page, Js.eval, getCurrentApiConfig_apiKey,
    getCurrentApiConfig_model, hm, hb, hParse]

/-- On a stored text the host cannot parse, `loadSavedApiConfigs` lets the
SyntaxError escape. -/
theorem loadSavedApiConfigs_corrupt (h : Host) (s : State) (e : String)
    (hParse : h.parse (storedConfigsText s) = .error e) :
    loadSavedApiConfigs h s = (.error e, s) := by
  simp [loadSavedApiConfigs, bind, Js.page, Js.eval, hParse]

/-- What `loadDraft` does with a stored, non-empty text the host cannot parse:
the SyntaxError is logged on the console. -/
theorem loadDraft_unparseable (h : Host) (s : State) (draft e : String)
    (hStored : getItem "ecommerce_tool_draft" s.localStorage = some draft) (hne : draft ≠ "")
    (hParse : h.parse draft = .error e) :
    loadDraft h s = (.ok (), s.emit (.consoleError "加载草稿失败:" e)) := by
  simp [loadDraft, bind, Js.page, hStored, hne, Js.tryCatch, Js.eval, hParse, emit, Js.update]

/-- What `loadDraft` does with a stored, non-empty text that parses to `null`:
the TypeError of `data.title` is logged on the console. -/
theorem loadDraft_null (h : Host) (s : State) (draft : String)
    (hStored : getItem "ecommerce_tool_draft" s.localStorage = some draft) (hne : draft ≠ "")
    (hParse : h.parse draft = .ok .null) :
    loadDraft h s = (.ok (), s.emit (.consoleError "加载草稿失败:" h.typeError)) := by
  simp [loadDraft, bind, Js.page, hStored, hne, Js.tryCatch, Js.eval, hParse, emit, Js.update,
    JVal.get]

/-- What `loadDraft` does with a stored empty text: nothing. -/
theorem loadDraft_empty (h : Host) (s : State)
    (hStored : getItem "ecommerce_tool_draft" s.localStorage = some "") :
    loadDraft h s = (.ok (), s) := by
  simp [loadDraft, bind, Js.page, hStored, pure]

theorem messagesOf_consoleError (type label e : String) (s : State) :
    messagesOf type (s.emit (.consoleError label e)) = messagesOf type s := by
  simp [messagesOf, State.emit]

/-! ## Blocks that keep a part of the page -/

theorem Js.keeps_pure {α β : Type} (view : State → β) (a : α) : Js.keeps view (pure a : Js α) :=
  fun _ => rfl

theorem Js.keeps_throw {α β : Type} (view : State → β) (e : String) :
    Js.keeps view (Js.throw e : Js α) := fun _ => rfl

theorem Js.keeps_eval {α β : Type} (view : State → β) (x : Except String α) :
    Js.keeps view (Js.eval x) := fun _ => rfl

theorem Js.keeps_page {β : Type} (view : State → β) : Js.keeps view Js.page := fun _ => rfl

theorem Js.keeps_update {β : Type} (view : State → β) (f : State → State)
    (hf : ∀ s, view (f s) = view s) : Js.keeps view (Js.update f) := fun s => hf s

theorem Js.keeps_bind {α β γ : Type} (view : State → γ) (m : Js α) (f : α → Js β)
    (hm : m.keeps view) (hf : ∀ a, (f a).keeps view) : Js.keeps view (m >>= f) := by
  intro s
  show view (match m s with
    | (.ok a, s1) => f a s1
    | (.error e, s1) => (.error e, s1)).2 = view s
  have h1 := hm s
  rcases hms : m s with ⟨r, s1⟩
  rw [hms] at h1
  cases r with
  | error e => exact h1
  | ok a => exact (hf a s1).trans h1

theorem Js.keeps_tryCatchFinally {γ : Type} (view : State → γ) (body : Js Unit)
    (handler : String → Js Unit) (fin : Js Unit) (hb : body.keeps view)
    (hh : ∀ e, (handler e).keeps view) (hfin : fin.keeps view) :
    Js.keeps view (Js.tryCatchFinally body handler fin) := by
  intro s
  unfold Js.tryCatchFinally
  have h1 := hb s
  rcases hbs : body s with ⟨r, s1⟩
  rw [hbs] at h1
  cases r with
  | ok u =>
    simp only
    exact (hfin s1).trans h1
  | error e =>
    simp only
    have h2 := hh e s1
    rcases hhs : handler e s1 with ⟨r2, s2⟩
    rw [hhs] at h2
    have h3 := hfin s2
    cases r2 with
    | ok u => simp only; exact h3.trans (h2.trans h1)
    | error e2 =>
      simp only
      rcases hfs : fin s2 with ⟨r3, s3⟩
      rw [hfs] at h3
      cases r3 with
      | ok u => exact h3.trans (h2.trans h1)
      | error e3 => exact h3.trans (h2.trans h1)

/-- Logging an effect keeps every part of the page that does not depend on the
log. -/
theorem keeps_emit {β : Type} (view : State → β) (e : Event)
    (hv : ∀ s es, view { s with events := es } = view s) : Js.keeps view (emit e) :=
  fun s => hv s _

theorem keeps_message {β : Type} (view : State → β) (text type : String)
    (hv : ∀ s es, view { s with events := es } = view s) : Js.keeps view (message text type) :=
  fun s => hv s _

theorem keeps_fetchJson {β : Type} (view : State → β) (url : String) (body : JVal)
    (net : NetResult) (hv : ∀ s es, view { s with events := es } = view s) :
    Js.keeps view (fetchJson url body net) := by
  unfold fetchJson
  refine Js.keeps_bind _ _ _ (keeps_emit _ _ hv) fun _ => ?_
  cases net with
  | failed m => exact Js.keeps_throw _ _
  | badBody m => exact Js.keeps_throw _ _
  | body result => exact Js.keeps_pure _ _

theorem keeps_displayImagePreview {β : Type} (view : State → β) (h : Host) (c : String)
    (url : JVal) (hv : ∀ s es, view { s with events := es } = view s) :
    Js.keeps view (displayImagePreview h c url) := by
  unfold displayImagePreview
  refine Js.keeps_bind _ _ _ (Js.keeps_page _) fun p => ?_
  split
  · exact keeps_emit _ _ hv
  · exact Js.keeps_throw _ _

/-- Whatever the network delivers, `handleTemplateUpload` leaves
`uploadedReference` as it was. -/
theorem handleTemplateUpload_keeps_reference (h : Host) (file : Option String)
    (net : NetResult) : Js.keeps State.uploadedReference (handleTemplateUpload h file net) := by
  unfold handleTemplateUpload
  cases file with
  | none => exact Js.keeps_pure _ _
  | some f =>
    refine Js.keeps_tryCatchFinally _ _ _ _ ?_ (fun e => keeps_message _ _ _ fun _ _ => rfl)
      (Js.keeps_update _ _ fun _ => rfl)
    refine Js.keeps_bind _ _ _ (Js.keeps_update _ _ fun _ => rfl) fun _ => ?_
    refine Js.keeps_bind _ _ _ (keeps_fetchJson _ _ _ _ fun _ _ => rfl) fun result => ?_
    refine Js.keeps_bind _ _ _ (Js.keeps_eval _ _) fun success => ?_
    split
    · refine Js.keeps_bind _ _ _ (Js.keeps_eval _ _) fun filename => ?_
      refine Js.keeps_bind _ _ _ (Js.keeps_update _ _ fun _ => rfl) fun _ => ?_
      refine Js.keeps_bind _ _ _ (Js.keeps_eval _ _) fun url => ?_
      refine Js.keeps_bind _ _ _ (keeps_displayImagePreview _ _ _ _ fun _ _ => rfl) fun _ => ?_
      exact keeps_message _ _ _ fun _ _ => rfl
    · refine Js.keeps_bind _ _ _ (Js.keeps_eval _ _) fun err => ?_
      exact keeps_message _ _ _ fun _ _ => rfl

/-- Whatever the network delivers, `handleReferenceUpload` leaves
`uploadedTemplate` as it was. -/
theorem handleReferenceUpload_keeps_template (h : Host) (file : Option String)
    (net : NetResult) : Js.keeps State.uploadedTemplate (handleReferenceUpload h file net) := by
  unfold handleReferenceUpload
  cases file with
  | none => exact Js.keeps_pure _ _
  | some f =>
    refine Js.keeps_tryCatchFinally _ _ _ _ ?_ (fun e => keeps_message _ _ _ fun _ _ => rfl)
      (Js.keeps_update _ _ fun _ => rfl)
    refine Js.keeps_bind _ _ _ (Js.keeps_update _ _ fun _ => rfl) fun _ => ?_
    refine Js.keeps_bind _ _ _ (keeps_fetchJson _ _ _ _ fun _ _ => rfl) fun result => ?_
    refine Js.keeps_bind _ _ _ (Js.keeps_eval _ _) fun success => ?_
    split
    · refine Js.keeps_bind _ _ _ (Js.keeps_eval _ _) fun filename => ?_
      refine Js.keeps_bind _ _ _ (Js.keeps_update _ _ fun _ => rfl) fun _ => ?_
      refine Js.keeps_bind _ _ _ (Js.keeps_eval _ _) fun url => ?_
      refine Js.keeps_bind _ _ _ (keeps_displayImagePreview _ _ _ _ fun _ _ => rfl) fun _ => ?_
      exact keeps_message _ _ _ fun _ _ => rfl
    · refine Js.keeps_bind _ _ _ (Js.keeps_eval _ _) fun err => ?_
      exact keeps_message _ _ _ fun _ _ => rfl

/-- The page after a template upload the backend reports as successful, when
the preview container exists. -/
theorem handleTemplateUpload_success (h : Host) (f : String) (kvs : List (String × JVal))
    (s : State) (hT : "templatePreview" ∈ s.containers)
    (hOk : (lookupProp "success" kvs).truthy = true) :
    (handleTemplateUpload h (some f) (.body (.obj kvs))).after s =
      { s with
        uploadedTemplate := lookupProp "filename" kvs
        loading := false
        events := s.events ++
          [.fetch "/api/upload" (.obj [("file", .str f), ("type", .str "template")]),
           .render "templatePreview" "imagePreview"
             [(lookupProp "url" kvs).toStr, "templatePreviewImage"],
           .message "模板上传成功" "success"] } := by
  simp [handleTemplateUpload, Js.after, Js.tryCatchFinally, bind, Js.update, uploadFile,
    fetchJson, emit, Js.eval, JVal.get, pure, message, showMessage, State.emit, hideLoading,
    showLoading, displayImagePreview, Js.page, hOk, hT]

/-- The page after a reference upload the backend reports as successful, when
the preview container exists. -/
theorem handleReferenceUpload_success (h : Host) (f : String) (kvs : List (String × JVal))
    (s : State) (hR : "referencePreview" ∈ s.containers)
    (hOk : (lookupProp "success" kvs).truthy = true) :
    (handleReferenceUpload h (some f) (.body (.obj kvs))).after s =
      { s with
        uploadedReference := lookupProp "filename" kvs
        loading := false
        events := s.events ++
          [.fetch "/api/upload" (.obj [("file", .str f), ("type", .str "reference")]),
           .render "referencePreview" "imagePreview"
             [(lookupProp "url" kvs).toStr, "referencePreviewImage"],
           .message "参考图上传成功" "success"] } := by
  simp [handleReferenceUpload, Js.after, Js.tryCatchFinally, bind, Js.update, uploadFile,
    fetchJson, emit, Js.eval, JVal.get, pure, message, showMessage, State.emit, hideLoading,
    showLoading, displayImagePreview, Js.page, hOk, hR]

/-- The page after `removeImage` on an existing container. -/
theorem removeImage_existing (h : Host) (c : String) (s : State) (hc : c ∈ s.containers) :
    (removeImage h c).after s =
      { s with
        uploadedTemplate := (if c = "templatePreview" then .null else s.uploadedTemplate)
        uploadedReference := (if c = "templatePreview" then s.uploadedReference
          else if c = "referencePreview" then .null else s.uploadedReference)
        events := s.events ++ [.render c "noImage" []] } := by
  by_cases h1 : c = "templatePreview"
  · subst h1
    simp [removeImage, Js.after, bind, Js.page, emit, Js.update, State.emit, hc]
  · by_cases h2 : c = "referencePreview"
    · subst h2
      simp [removeImage, Js.after, bind, Js.page, emit, Js.update, State.emit, hc]
    · simp [removeImage, Js.after, bind, Js.page, emit, Js.update, State.emit, hc, h1, h2, pure]

/-- The function `removeImage` throws and changes nothing when there is no such
container. -/
theorem removeImage_missing (h : Host) (c : String) (s : State) (hc : c ∉ s.containers) :
    removeImage h c s = (.error h.typeError, s) := by
  simp [removeImage, bind, Js.page, Js.throw, hc]

/-! ## Drafts: an empty autosave is skipped -/

/-- C1: with the title field and the content field both empty, `autoSaveDraft`
changes nothing (in particular not local storage) and throws nothing, so
whatever is stored under `ecommerce_tool_draft` is still stored; and a draft
saved earlier from non-empty fields, with its title, content and timestamp, is
still the stored draft after the fields were emptied and `autoSaveDraft` ran
again. -/
theorem autoSaveDraft_empty_fields_keeps_storage (h : Host) (now : Int) (s : State)
    (hTitle : s.articleTitle = "") (hContent : s.articleContent = "") :
    (autoSaveDraft h now).after s = s ∧
    (autoSaveDraft h now).escaped s = none ∧
    (∀ (s0 : State) (now0 : Int), (s0.articleTitle ≠ "" ∨ s0.articleContent ≠ "") →
      s.localStorage = ((autoSaveDraft h now0).after s0).localStorage →
      getItem "ecommerce_tool_draft" ((autoSaveDraft h now).after s).localStorage =
        some (h.stringify (.obj [("title", .str s0.articleTitle),
          ("content", .str s0.articleContent), ("timestamp", .num now0)]))) := by
  have hskip : autoSaveDraft h now s = (.ok (), s) := by
    simp [autoSaveDraft, bind, Js.page, pure, hTitle, hContent]
  refine ⟨by simp [Js.after, hskip], by simp [Js.escaped, hskip], ?_⟩
  intro s0 now0 hne hst
  have hsave : ((autoSaveDraft h now0).after s0).localStorage =
      setItem "ecommerce_tool_draft" (h.stringify (.obj [("title", .str s0.articleTitle),
        ("content", .str s0.articleContent), ("timestamp", .num now0)])) s0.localStorage := by
    simp [autoSaveDraft, Js.after, bind, Js.page, Js.update, hne]
  simp only [Js.after, hskip, hst]
  rw [← Js.after, hsave, getItem_setItem_same]

/-- C1 at a concrete page: a draft is stored, both fields are empty. -/
theorem autoSaveDraft_empty_fields_keeps_storage_witness :
    (autoSaveDraft refHost 1700000000000).after
        { localStorage := [("ecommerce_tool_draft", "saved")] } =
      { localStorage := [("ecommerce_tool_draft", "saved")] } ∧
    (autoSaveDraft refHost 1700000000000).escaped
        { localStorage := [("ecommerce_tool_draft", "saved")] } = none :=
  let r := autoSaveDraft_empty_fields_keeps_storage refHost 1700000000000
    { localStorage := [("ecommerce_tool_draft", "saved")] } rfl rfl
  ⟨r.1, r.2.1⟩

/-! ## API configurations: merge, invariant, reload -/

/-- C2: on a page `saveApiConfig` accepts (model id and trimmed api_key not
empty), with a persisted mapping `kvs`, the mapping persisted afterwards maps the
selected model to the credentials of `getCurrentApiConfig` and every other
model id as before: same value, and present exactly when it was present. Nothing
else in local storage changes and nothing is thrown. -/
theorem saveApiConfig_merges (h : Host) (s : State) (kvs : List (String × JVal))
    (hAcc : saveAccepts s) (hParse : h.parse (storedConfigsText s) = .ok (.obj kvs))
    (hRound : h.roundTrips (mergedConfigs s kvs)) :
    (saveApiConfig h).escaped s = none ∧
    (∀ k, k ≠ "ai_api_configs" →
      getItem k ((saveApiConfig h).after s).localStorage = getItem k s.localStorage) ∧
    ∃ kvs2, h.parse (storedConfigsText ((saveApiConfig h).after s)) = .ok (.obj kvs2) ∧
      lookupProp (selectedModel s) kvs2 = (getCurrentApiConfig s).config ∧
      (∀ k, k ≠ selectedModel s → lookupProp k kvs2 = lookupProp k kvs) ∧
      (∀ k, k ≠ selectedModel s → (k ∈ kvs2.map Prod.fst ↔ k ∈ kvs.map Prod.fst)) := by
  refine ⟨?_, ?_, assignProp (selectedModel s) (getCurrentApiConfig s).config kvs, ?_, ?_, ?_, ?_⟩
  · simp [Js.escaped, saveApiConfig_accepted h s kvs hAcc hParse]
  · intro k hk
    rw [Js.after, saveApiConfig_accepted h s kvs hAcc hParse, showMessage_localStorage]
    exact getItem_setItem_other _ _ _ _ hk
  · rw [storedConfigsText_after_save h s kvs hAcc hParse hRound]
    exact hRound.2
  · exact lookupProp_assignProp_same _ _ _
  · intro k hk
    exact lookupProp_assignProp_other _ _ _ _ hk
  · intro k hk
    exact keys_assignProp _ _ _ _ hk

/-- C2 on `pageDualKey` with the reference host. -/
theorem saveApiConfig_merges_witness :
    (saveApiConfig refHost).escaped pageDualKey = none ∧
    (∀ k, k ≠ "ai_api_configs" →
      getItem k ((saveApiConfig refHost).after pageDualKey).localStorage =
        getItem k pageDualKey.localStorage) ∧
    ∃ kvs2, refHost.parse (storedConfigsText ((saveApiConfig refHost).after pageDualKey)) =
        .ok (.obj kvs2) ∧
      lookupProp (selectedModel pageDualKey) kvs2 = (getCurrentApiConfig pageDualKey).config ∧
      (∀ k, k ≠ selectedModel pageDualKey → lookupProp k kvs2 = lookupProp k storedDalle3) ∧
      (∀ k, k ≠ selectedModel pageDualKey →
        (k ∈ kvs2.map Prod.fst ↔ k ∈ storedDalle3.map Prod.fst)) :=
  saveApiConfig_merges refHost pageDualKey storedDalle3 (by decide) (by rfl)
    ⟨by decide, by rfl⟩

/-- C3 (as amended): when the value persisted under `ai_api_configs` before the
save is a JSON object (the stored text, or `{}` when nothing or the empty string
is stored, parses to an object), then after an accepted save, on any page with
the storage the save left and the same model selected, `loadSavedApiConfigs`
throws nothing and, for a single-key model, puts the saved api_key into the
single key field, and for a dual-key model saved with a non-empty secret_key,
puts the saved api_key and secret_key into the primary and secondary key fields;
`getCurrentApiConfig` then yields exactly the saved credentials. The host's JSON
functions are assumed to round-trip the object that is written. -/
theorem loadSavedApiConfigs_after_save (h : Host) (s p : State) (kvs : List (String × JVal))
    (hAcc : saveAccepts s) (hParse : h.parse (storedConfigsText s) = .ok (.obj kvs))
    (hRound : h.roundTrips (mergedConfigs s kvs))
    (hStore : p.localStorage = ((saveApiConfig h).after s).localStorage)
    (hModel : selectedModel p = selectedModel s)
    (hSecret : selectedModel s ∈ dualKeyModels → jsTrim s.apiKeySecondary ≠ "") :
    (loadSavedApiConfigs h).escaped p = none ∧
    (selectedModel s ∈ dualKeyModels →
      ((loadSavedApiConfigs h).after p).apiKeyPrimary = jsTrim s.apiKeyPrimary ∧
      ((loadSavedApiConfigs h).after p).apiKeySecondary = jsTrim s.apiKeySecondary) ∧
    (selectedModel s ∉ dualKeyModels →
      ((loadSavedApiConfigs h).after p).apiKey = jsTrim s.apiKey) ∧
    (getCurrentApiConfig ((loadSavedApiConfigs h).after p)).model =
      (getCurrentApiConfig s).model ∧
    (getCurrentApiConfig ((loadSavedApiConfigs h).after p)).config =
      (getCurrentApiConfig s).config := by
  have hText : storedConfigsText p = h.stringify (mergedConfigs s kvs) := by
    rw [storedConfigsText_congr p _ hStore]
    exact storedConfigsText_after_save h s kvs hAcc hParse hRound
  have hParseP : h.parse (storedConfigsText p) =
      .ok (.obj (assignProp (selectedModel s) (getCurrentApiConfig s).config kvs)) := by
    rw [hText]; exact hRound.2
  have hLook : lookupProp (selectedModel p)
      (assignProp (selectedModel s) (getCurrentApiConfig s).config kvs) =
      (getCurrentApiConfig s).config := by
    rw [hModel]; exact lookupProp_assignProp_same _ _ _
  have hKey := hAcc.2
  by_cases hd : selectedModel s ∈ dualKeyModels
  · have hcfg : (getCurrentApiConfig s).config = .obj [("api_key", .str (jsTrim s.apiKeyPrimary)),
        ("secret_key", .str (jsTrim s.apiKeySecondary))] := by
      simp [getCurrentApiConfig, hd]
    have ha : jsTrim s.apiKeyPrimary ≠ "" := by simpa [currentApiKey, hd] using hKey
    have hrun := loadSavedApiConfigs_dual h p _ _ _ hParseP (hLook.trans hcfg) ha
    rw [if_neg (hSecret hd)] at hrun
    have hsel : selectedModel ((loadSavedApiConfigs h).after p) = selectedModel s := by
      rw [← hModel]
      simp [Js.after, hrun, selectedModel]
    have hd2 : selectedModel ((loadSavedApiConfigs h).after p) ∈ dualKeyModels := hsel ▸ hd
    refine ⟨by simp [Js.escaped, hrun], fun _ => ⟨by simp [Js.after, hrun], by simp [Js.after, hrun]⟩,
      fun hn => absurd hd hn, ?_, ?_⟩
    · rw [getCurrentApiConfig_model, getCurrentApiConfig_model, hsel]
    · rw [hcfg]
      simp only [getCurrentApiConfig, hd2, if_true]
      simp [Js.after, hrun, jsTrim_idempotent]
  · have hcfg : (getCurrentApiConfig s).config = .obj [("api_key", .str (jsTrim s.apiKey))] := by
      simp [getCurrentApiConfig, hd]
    have ha : jsTrim s.apiKey ≠ "" := by simpa [currentApiKey, hd] using hKey
    have hrun := loadSavedApiConfigs_single h p _ _ hParseP (hLook.trans hcfg) ha
    have hsel : selectedModel ((loadSavedApiConfigs h).after p) = selectedModel s := by
      rw [← hModel]
      simp [Js.after, hrun, selectedModel]
    have hd2 : selectedModel ((loadSavedApiConfigs h).after p) ∉ dualKeyModels := hsel ▸ hd
    refine ⟨by simp [Js.escaped, hrun], fun hy => absurd hy hd, fun _ => by simp [Js.after, hrun],
      ?_, ?_⟩
    · rw [getCurrentApiConfig_model, getCurrentApiConfig_model, hsel]
    · rw [hcfg]
      simp only [getCurrentApiConfig, hd2, if_false]
      simp [Js.after, hrun, jsTrim_idempotent]

/-- C3 (as amended) on `pageDualKey`, reloaded. -/
theorem loadSavedApiConfigs_after_save_witness :
    (loadSavedApiConfigs refHost).escaped (reloaded pageDualKey) = none ∧
    (selectedModel pageDualKey ∈ dualKeyModels →
      ((loadSavedApiConfigs refHost).after (reloaded pageDualKey)).apiKeyPrimary =
        jsTrim pageDualKey.apiKeyPrimary ∧
      ((loadSavedApiConfigs refHost).after (reloaded pageDualKey)).apiKeySecondary =
        jsTrim pageDualKey.apiKeySecondary) ∧
    (selectedModel pageDualKey ∉ dualKeyModels →
      ((loadSavedApiConfigs refHost).after (reloaded pageDualKey)).apiKey =
        jsTrim pageDualKey.apiKey) ∧
    (getCurrentApiConfig ((loadSavedApiConfigs refHost).after (reloaded pageDualKey))).model =
      (getCurrentApiConfig pageDualKey).model ∧
    (getCurrentApiConfig ((loadSavedApiConfigs refHost).after (reloaded pageDualKey))).config =
      (getCurrentApiConfig pageDualKey).config :=
  loadSavedApiConfigs_after_save refHost pageDualKey (reloaded pageDualKey) storedDalle3
    (by decide) (by rfl) ⟨by decide, by rfl⟩ rfl (by decide) (fun _ => by decide)

/-- C3 as stated fails on two inputs. First, for a dual-key model saved with an
empty secret_key: the save is accepted and stores
`{api_key: "a", secret_key: ""}`, but after a reload `loadSavedApiConfigs` leaves
the primary key field empty, so `getCurrentApiConfig` does not yield the saved
credentials. Second, when the stored text is not an object: with `[]` stored and
both keys filled in, the save is accepted and reports success, the property it
assigns on the array is not serialised, so `[]` is written back, and after a
reload nothing is put back into the key fields. -/
theorem loadSavedApiConfigs_after_save_counterexample :
    (saveAccepts pageEmptySecret ∧
      refHost.parse (storedConfigsText pageEmptySecret) = .ok (.obj []) ∧
      refHost.roundTrips (mergedConfigs pageEmptySecret []) ∧
      (saveApiConfig refHost).escaped pageEmptySecret = none ∧
      refHost.parse (storedConfigsText (reloaded pageEmptySecret)) =
        .ok (.obj [("baidu_wenxin", .obj [("api_key", .str "a"), ("secret_key", .str "")])]) ∧
      selectedModel (reloaded pageEmptySecret) = selectedModel pageEmptySecret ∧
      selectedModel pageEmptySecret ∈ dualKeyModels ∧
      (getCurrentApiConfig pageEmptySecret).config =
        .obj [("api_key", .str "a"), ("secret_key", .str "")] ∧
      (loadSavedApiConfigs refHost).escaped (reloaded pageEmptySecret) = none ∧
      ((loadSavedApiConfigs refHost).after (reloaded pageEmptySecret)).apiKeyPrimary = "" ∧
      (getCurrentApiConfig
          ((loadSavedApiConfigs refHost).after (reloaded pageEmptySecret))).config =
        .obj [("api_key", .str ""), ("secret_key", .str "")] ∧
      (getCurrentApiConfig
          ((loadSavedApiConfigs refHost).after (reloaded pageEmptySecret))).config ≠
        (getCurrentApiConfig pageEmptySecret).config) ∧
    (saveAccepts pageArrayStored ∧
      refHost.parse (storedConfigsText pageArrayStored) = .ok (.arr []) ∧
      (getCurrentApiConfig pageArrayStored).config =
        .obj [("api_key", .str "a"), ("secret_key", .str "b")] ∧
      (saveApiConfig refHost).escaped pageArrayStored = none ∧
      messagesOf "success" ((saveApiConfig refHost).after pageArrayStored) =
        ["API配置已保存"] ∧
      ((saveApiConfig refHost).after pageArrayStored).localStorage =
        [("ai_api_configs", "[]")] ∧
      selectedModel (reloaded pageArrayStored) = selectedModel pageArrayStored ∧
      selectedModel pageArrayStored ∈ dualKeyModels ∧
      (loadSavedApiConfigs refHost).escaped (reloaded pageArrayStored) = none ∧
      ((loadSavedApiConfigs refHost).after (reloaded pageArrayStored)).apiKeyPrimary = "" ∧
      ((loadSavedApiConfigs refHost).after (reloaded pageArrayStored)).apiKeySecondary = "" ∧
      (getCurrentApiConfig
          ((loadSavedApiConfigs refHost).after (reloaded pageArrayStored))).config =
        .obj [("api_key", .str ""), ("secret_key", .str "")] ∧
      (getCurrentApiConfig
          ((loadSavedApiConfigs refHost).after (reloaded pageArrayStored))).config ≠
        (getCurrentApiConfig pageArrayStored).config) := by
  refine ⟨⟨by decide, by rfl, ⟨by decide, by rfl⟩, by rfl, by rfl, by decide, by decide, by rfl,
    by rfl, by rfl, by rfl, by decide⟩, ?_⟩
  refine ⟨by decide, by rfl, by rfl, by rfl, by decide, by decide, by decide, by decide, by rfl,
    by rfl, by rfl, by rfl, by decide⟩

/-- C4: the entry an accepted `saveApiConfig` writes for the selected model has a
`secret_key` field exactly when that model is one of the dual-key models
`baidu_wenxin` and `tencent_hunyuan` (so none for `dalle3`), it is an entry of
the mapping persisted afterwards, and if every entry of the persisted mapping
satisfied "secret_key present iff dual-key model" before, every entry does
afterwards. -/
theorem saveApiConfig_secret_key_invariant (h : Host) (s : State) (kvs : List (String × JVal))
    (hAcc : saveAccepts s) (hParse : h.parse (storedConfigsText s) = .ok (.obj kvs))
    (hRound : h.roundTrips (mergedConfigs s kvs)) :
    (hasField "secret_key" (getCurrentApiConfig s).config = true ↔
      (selectedModel s = "baidu_wenxin" ∨ selectedModel s = "tencent_hunyuan")) ∧
    ∃ kvs2, h.parse (storedConfigsText ((saveApiConfig h).after s)) = .ok (.obj kvs2) ∧
      (selectedModel s, (getCurrentApiConfig s).config) ∈ kvs2 ∧
      ((∀ e ∈ kvs, entryOk e) → ∀ e ∈ kvs2, entryOk e) := by
  have hNew := getCurrentApiConfig_entryOk s
  refine ⟨?_, assignProp (selectedModel s) (getCurrentApiConfig s).config kvs, ?_, ?_, ?_⟩
  · simpa [entryOk, dualKeyModels] using hNew
  · rw [storedConfigsText_after_save h s kvs hAcc hParse hRound]
    exact hRound.2
  · exact assignProp_mem _ _ _
  · intro hAll e he
    rcases mem_assignProp _ _ _ e he with heq | hold
    · rw [heq]; exact hNew
    · exact hAll e hold

/-- C4 on `pageDualKey` with the reference host. -/
theorem saveApiConfig_secret_key_invariant_witness :
    (hasField "secret_key" (getCurrentApiConfig pageDualKey).config = true ↔
      (selectedModel pageDualKey = "baidu_wenxin" ∨
        selectedModel pageDualKey = "tencent_hunyuan")) ∧
    ∃ kvs2, refHost.parse (storedConfigsText ((saveApiConfig refHost).after pageDualKey)) =
        .ok (.obj kvs2) ∧
      (selectedModel pageDualKey, (getCurrentApiConfig pageDualKey).config) ∈ kvs2 ∧
      ((∀ e ∈ storedDalle3, entryOk e) → ∀ e ∈ kvs2, entryOk e) :=
  saveApiConfig_secret_key_invariant refHost pageDualKey storedDalle3 (by decide) (by rfl)
    ⟨by decide, by rfl⟩

/-! ## Validation before dispatch -/

/-- C5: `generateMainImage` sends the request to `/api/generate-main-image`
exactly when the trimmed title is not empty, the trimmed content is not empty
and the template variable is truthy, which for the values a template asset
takes (`null` or a filename string) means neither `null` nor the empty string.
In every other case it only shows one error message: no request is made and the
page, `uploadedTemplate` and `uploadedReference` included, is otherwise
unchanged. -/
theorem generateMainImage_dispatch (h : Host) (net : NetResult) (s : State) :
    (requests ((generateMainImage h net).after s) =
        requests s ++ [("/api/generate-main-image", mainImageRequest s)] ↔
      (jsTrim s.articleTitle ≠ "" ∧ jsTrim s.articleContent ≠ "" ∧
        s.uploadedTemplate.truthy = true)) ∧
    ((jsTrim s.articleTitle ≠ "" ∧ jsTrim s.articleContent ≠ "" ∧
        s.uploadedTemplate.truthy = true) ∨
      (requests ((generateMainImage h net).after s) = requests s ∧
        ((generateMainImage h net).after s = showMessage "请输入完整的标题和内容" "error" s ∨
          (generateMainImage h net).after s = showMessage "请先上传主图模板" "error" s) ∧
        ((generateMainImage h net).after s).uploadedTemplate = s.uploadedTemplate ∧
        ((generateMainImage h net).after s).uploadedReference = s.uploadedReference)) ∧
    JVal.null.truthy = false ∧ (∀ f : String, (JVal.str f).truthy = true ↔ f ≠ "") := by
  have hRej : ¬ (jsTrim s.articleTitle ≠ "" ∧ jsTrim s.articleContent ≠ "" ∧
        s.uploadedTemplate.truthy = true) →
      (requests ((generateMainImage h net).after s) = requests s ∧
        ((generateMainImage h net).after s = showMessage "请输入完整的标题和内容" "error" s ∨
          (generateMainImage h net).after s = showMessage "请先上传主图模板" "error" s) ∧
        ((generateMainImage h net).after s).uploadedTemplate = s.uploadedTemplate ∧
        ((generateMainImage h net).after s).uploadedReference = s.uploadedReference) := by
    intro hn
    by_cases hi : jsTrim s.articleTitle = "" ∨ jsTrim s.articleContent = ""
    · have hrun := generateMainImage_incomplete h net s hi
      rw [hrun]
      exact ⟨requests_showMessage _ _ _, Or.inl rfl, rfl, rfl⟩
    · have ht : jsTrim s.articleTitle ≠ "" := fun e => hi (Or.inl e)
      have hc : jsTrim s.articleContent ≠ "" := fun e => hi (Or.inr e)
      have hu : s.uploadedTemplate.truthy = false := by
        cases hb : s.uploadedTemplate.truthy
        · rfl
        · exact absurd ⟨ht, hc, hb⟩ hn
      have hrun := generateMainImage_no_template h net s ht hc hu
      rw [hrun]
      exact ⟨requests_showMessage _ _ _, Or.inr rfl, rfl, rfl⟩
  refine ⟨⟨?_, ?_⟩, ?_, rfl, ?_⟩
  · intro hsent
    by_contra hn
    have hsame := (hRej hn).1
    rw [hsame] at hsent
    simp at hsent
  · rintro ⟨ht, hc, hu⟩
    exact generateMainImage_sends h net s ht hc hu
  · by_cases hr : jsTrim s.articleTitle ≠ "" ∧ jsTrim s.articleContent ≠ "" ∧
        s.uploadedTemplate.truthy = true
    · exact Or.inl hr
    · exact Or.inr (hRej hr)
  · intro f
    simp [JVal.truthy]

/-- C6 (as amended): the effective `generateAIImage` sends its request exactly
when the trimmed title, the trimmed content and the api_key of the active model
are not empty, where the api_key is the trimmed primary key field for a
dual-key model and the trimmed single key field otherwise; the secondary key is
not looked at. In every other case no request is made and only one error message
is shown. -/
theorem generateAIImage_dispatch (h : Host) (net : NetResult) (s : State) :
    (requests ((generateAIImage h net).after s) =
        requests s ++ [("/api/generate-ai-image-enhanced", aiImageRequest s)] ↔
      (jsTrim s.articleTitle ≠ "" ∧ jsTrim s.articleContent ≠ "" ∧ currentApiKey s ≠ "")) ∧
    ((jsTrim s.articleTitle ≠ "" ∧ jsTrim s.articleContent ≠ "" ∧ currentApiKey s ≠ "") ∨
      (requests ((generateAIImage h net).after s) = requests s ∧
        ((generateAIImage h net).after s = showMessage "请输入完整的标题和内容" "error" s ∨
          (generateAIImage h net).after s = showMessage "请配置API密钥" "error" s))) ∧
    currentApiKey s =
      (if selectedModel s = "baidu_wenxin" ∨ selectedModel s = "tencent_hunyuan"
        then jsTrim s.apiKeyPrimary else jsTrim s.apiKey) := by
  have hRej : ¬ (jsTrim s.articleTitle ≠ "" ∧ jsTrim s.articleContent ≠ "" ∧
        currentApiKey s ≠ "") →
      (requests ((generateAIImage h net).after s) = requests s ∧
        ((generateAIImage h net).after s = showMessage "请输入完整的标题和内容" "error" s ∨
          (generateAIImage h net).after s = showMessage "请配置API密钥" "error" s)) := by
    intro hn
    by_cases hi : jsTrim s.articleTitle = "" ∨ jsTrim s.articleContent = ""
    · rw [generateAIImage_incomplete h net s hi]
      exact ⟨requests_showMessage _ _ _, Or.inl rfl⟩
    · have ht : jsTrim s.articleTitle ≠ "" := fun e => hi (Or.inl e)
      have hc : jsTrim s.articleContent ≠ "" := fun e => hi (Or.inr e)
      have hk : currentApiKey s = "" := by
        by_contra hk
        exact hn ⟨ht, hc, hk⟩
      rw [generateAIImage_no_key h net s ht hc hk]
      exact ⟨requests_showMessage _ _ _, Or.inr rfl⟩
  refine ⟨⟨?_, ?_⟩, ?_, ?_⟩
  · intro hsent
    by_contra hn
    rw [(hRej hn).1] at hsent
    simp at hsent
  · rintro ⟨ht, hc, hk⟩
    exact generateAIImage_sends h net s ht hc hk
  · by_cases hr : jsTrim s.articleTitle ≠ "" ∧ jsTrim s.articleContent ≠ "" ∧
        currentApiKey s ≠ ""
    · exact Or.inl hr
    · exact Or.inr (hRej hr)
  · simp [currentApiKey, dualKeyModels]

/-- C6 as stated fails on `pageAiEmptySecret`: the active model is dual-key and
its secondary key is empty, yet `generateAIImage` sends the request, with an
empty `secret_key` in it. -/
theorem generateAIImage_empty_secondary_counterexample :
    selectedModel pageAiEmptySecret ∈ dualKeyModels ∧
    jsTrim pageAiEmptySecret.apiKeySecondary = "" ∧
    requests pageAiEmptySecret = [] ∧
    requests ((generateAIImage refHost (.failed "offline")).after pageAiEmptySecret) =
      [("/api/generate-ai-image-enhanced",
        .obj [("title", .str "t"), ("content", .str "c"), ("model_id", .str "baidu_wenxin"),
          ("config", .obj [("api_key", .str "a"), ("secret_key", .str "")]),
          ("size", .str ""), ("style", .str "")])] := by
  refine ⟨by decide, by decide, by decide, by decide⟩

/-! ## Corrupt persisted data -/

/-- C7 fails on `pageCorruptConfigs`: the stored text is not JSON, and both
`saveApiConfig` and `loadSavedApiConfigs` let the SyntaxError of `JSON.parse`
escape to their caller; `saveApiConfig` saves nothing and shows nothing. Had
the stored text been treated as an empty mapping, as on the same page with
nothing stored, the configuration would have been saved. -/
theorem corrupt_configs_exception_escapes :
    refHost.parse "\x7boops" = .error "SyntaxError" ∧
    saveAccepts pageCorruptConfigs ∧
    (saveApiConfig refHost).escaped pageCorruptConfigs = some "SyntaxError" ∧
    (saveApiConfig refHost).after pageCorruptConfigs = pageCorruptConfigs ∧
    (loadSavedApiConfigs refHost).escaped pageCorruptConfigs = some "SyntaxError" ∧
    (saveApiConfig refHost).escaped { pageCorruptConfigs with localStorage := [] } = none ∧
    ((saveApiConfig refHost).after { pageCorruptConfigs with localStorage := [] }).localStorage =
      [("ai_api_configs",
        "\x7b\"baidu_wenxin\":\x7b\"api_key\":\"a\",\"secret_key\":\"b\"\x7d\x7d")] := by
  refine ⟨by rfl, by decide, by rfl, by rfl, by rfl, by rfl, by rfl⟩

/-- C8: when the text stored under `ecommerce_tool_draft` cannot be parsed or
parses to `null`, `loadDraft` throws nothing, leaves the title and content
fields and local storage as they were and shows no message; the page changes at
most by one console error, which is logged whenever the stored text is not
empty. -/
theorem loadDraft_malformed (h : Host) (s : State) (draft : String)
    (hStored : getItem "ecommerce_tool_draft" s.localStorage = some draft)
    (hBad : (∃ e, h.parse draft = .error e) ∨ h.parse draft = .ok .null) :
    (loadDraft h).escaped s = none ∧
    ((loadDraft h).after s).articleTitle = s.articleTitle ∧
    ((loadDraft h).after s).articleContent = s.articleContent ∧
    ((loadDraft h).after s).localStorage = s.localStorage ∧
    (∀ type, messagesOf type ((loadDraft h).after s) = messagesOf type s) ∧
    ((draft = "" ∧ (loadDraft h).after s = s) ∨
      (draft ≠ "" ∧ ∃ e, (loadDraft h).after s = s.emit (.consoleError "加载草稿失败:" e))) := by
  by_cases hne : draft = ""
  · subst hne
    have hrun := loadDraft_empty h s hStored
    refine ⟨by simp [Js.escaped, hrun], by simp [Js.after, hrun], by simp [Js.after, hrun],
      by simp [Js.after, hrun], fun _ => by simp [Js.after, hrun], Or.inl ⟨rfl, ?_⟩⟩
    simp [Js.after, hrun]
  · have hrun : ∃ e, loadDraft h s = (.ok (), s.emit (.consoleError "加载草稿失败:" e)) := by
      rcases hBad with ⟨e, he⟩ | hnull
      · exact ⟨e, loadDraft_unparseable h s draft e hStored hne he⟩
      · exact ⟨h.typeError, loadDraft_null h s draft hStored hne hnull⟩
    obtain ⟨e, hrun⟩ := hrun
    refine ⟨by simp [Js.escaped, hrun], by simp [Js.after, hrun, State.emit],
      by simp [Js.after, hrun, State.emit], by simp [Js.after, hrun, State.emit], ?_,
      Or.inr ⟨hne, e, by simp [Js.after, hrun]⟩⟩
    intro type
    simp only [Js.after, hrun]
    exact messagesOf_consoleError _ _ _ _

/-- C8 on `pageCorruptDraft` with the reference host. -/
theorem loadDraft_malformed_witness :
    (loadDraft refHost).escaped pageCorruptDraft = none ∧
    ((loadDraft refHost).after pageCorruptDraft).articleTitle = pageCorruptDraft.articleTitle ∧
    ((loadDraft refHost).after pageCorruptDraft).articleContent =
      pageCorruptDraft.articleContent ∧
    ((loadDraft refHost).after pageCorruptDraft).localStorage = pageCorruptDraft.localStorage ∧
    (∀ type, messagesOf type ((loadDraft refHost).after pageCorruptDraft) =
      messagesOf type pageCorruptDraft) ∧
    (("\x7boops" = "" ∧ (loadDraft refHost).after pageCorruptDraft = pageCorruptDraft) ∨
      ("\x7boops" ≠ "" ∧ ∃ e, (loadDraft refHost).after pageCorruptDraft =
        pageCorruptDraft.emit (.consoleError "加载草稿失败:" e))) :=
  loadDraft_malformed refHost pageCorruptDraft "\x7boops" (by rfl) (Or.inl ⟨"SyntaxError", by rfl⟩)

/-! ## The two uploaded assets -/

/-- C9: on a page with both preview containers, a template upload the backend
reports as successful sets `uploadedTemplate` to the returned filename and
leaves `uploadedReference` as it was, and a successful reference upload does the
converse; whatever the network delivers, a template upload never changes
`uploadedReference` and a reference upload never changes `uploadedTemplate`;
`removeImage('templatePreview')` sets `uploadedTemplate` to `null` and leaves
`uploadedReference`, `removeImage('referencePreview')` sets `uploadedReference`
to `null` and leaves `uploadedTemplate`, and `removeImage` with any other id
changes neither. -/
theorem assets_independent (h : Host) (s : State) (file : Option String) (net : NetResult)
    (f : String) (kvs : List (String × JVal)) (other : String)
    (hT : "templatePreview" ∈ s.containers) (hR : "referencePreview" ∈ s.containers)
    (hOk : (lookupProp "success" kvs).truthy = true)
    (hOther : other ≠ "templatePreview" ∧ other ≠ "referencePreview") :
    (((handleTemplateUpload h (some f) (.body (.obj kvs))).after s).uploadedTemplate =
        lookupProp "filename" kvs ∧
      ((handleTemplateUpload h (some f) (.body (.obj kvs))).after s).uploadedReference =
        s.uploadedReference) ∧
    (((handleReferenceUpload h (some f) (.body (.obj kvs))).after s).uploadedReference =
        lookupProp "filename" kvs ∧
      ((handleReferenceUpload h (some f) (.body (.obj kvs))).after s).uploadedTemplate =
        s.uploadedTemplate) ∧
    ((handleTemplateUpload h file net).after s).uploadedReference = s.uploadedReference ∧
    ((handleReferenceUpload h file net).after s).uploadedTemplate = s.uploadedTemplate ∧
    (((removeImage h "templatePreview").after s).uploadedTemplate = .null ∧
      ((removeImage h "templatePreview").after s).uploadedReference = s.uploadedReference) ∧
    (((removeImage h "referencePreview").after s).uploadedReference = .null ∧
      ((removeImage h "referencePreview").after s).uploadedTemplate = s.uploadedTemplate) ∧
    (((removeImage h other).after s).uploadedTemplate = s.uploadedTemplate ∧
      ((removeImage h other).after s).uploadedReference = s.uploadedReference) := by
  refine ⟨⟨?_, ?_⟩, ⟨?_, ?_⟩, ?_, ?_, ⟨?_, ?_⟩, ⟨?_, ?_⟩, ?_⟩
  · rw [handleTemplateUpload_success h f kvs s hT hOk]
  · rw [handleTemplateUpload_success h f kvs s hT hOk]
  · rw [handleReferenceUpload_success h f kvs s hR hOk]
  · rw [handleReferenceUpload_success h f kvs s hR hOk]
  · exact handleTemplateUpload_keeps_reference h file net s
  · exact handleReferenceUpload_keeps_template h file net s
  · rw [removeImage_existing h _ s hT]; simp
  · rw [removeImage_existing h _ s hT]; simp
  · rw [removeImage_existing h _ s hR]; simp
  · rw [removeImage_existing h _ s hR]; simp
  · by_cases hc : other ∈ s.containers
    · rw [removeImage_existing h _ s hc]
      simp [hOther.1, hOther.2]
    · simp [Js.after, removeImage_missing h _ s hc]

/-- C9 on `pageBothAssets` with the reference host. -/
theorem assets_independent_witness :
    (((handleTemplateUpload refHost (some "a.png") (.body (.obj uploadOk))).after
          pageBothAssets).uploadedTemplate = lookupProp "filename" uploadOk ∧
      ((handleTemplateUpload refHost (some "a.png") (.body (.obj uploadOk))).after
          pageBothAssets).uploadedReference = pageBothAssets.uploadedReference) ∧
    (((handleReferenceUpload refHost (some "a.png") (.body (.obj uploadOk))).after
          pageBothAssets).uploadedReference = lookupProp "filename" uploadOk ∧
      ((handleReferenceUpload refHost (some "a.png") (.body (.obj uploadOk))).after
          pageBothAssets).uploadedTemplate = pageBothAssets.uploadedTemplate) ∧
    ((handleTemplateUpload refHost (some "a.png") (.failed "offline")).after
        pageBothAssets).uploadedReference = pageBothAssets.uploadedReference ∧
    ((handleReferenceUpload refHost (some "a.png") (.failed "offline")).after
        pageBothAssets).uploadedTemplate = pageBothAssets.uploadedTemplate ∧
    (((removeImage refHost "templatePreview").after pageBothAssets).uploadedTemplate = .null ∧
      ((removeImage refHost "templatePreview").after pageBothAssets).uploadedReference =
        pageBothAssets.uploadedReference) ∧
    (((removeImage refHost "referencePreview").after pageBothAssets).uploadedReference = .null ∧
      ((removeImage refHost "referencePreview").after pageBothAssets).uploadedTemplate =
        pageBothAssets.uploadedTemplate) ∧
    (((removeImage refHost "mainImagePreview").after pageBothAssets).uploadedTemplate =
        pageBothAssets.uploadedTemplate ∧
      ((removeImage refHost "mainImagePreview").after pageBothAssets).uploadedReference =
        pageBothAssets.uploadedReference) :=
  assets_independent refHost pageBothAssets (some "a.png") (.failed "offline") "a.png" uploadOk
    "mainImagePreview" (by decide) (by decide) (by decide) (by decide)

/-! ## One outcome per request -/

/-- C10 fails on `pageUnknownModel` with a successful response: `getModelInfo`
gives `undefined` for the active model, so after the AI image has been rendered
the success message throws and the `catch` block shows an error message: the
request ends with the payload rendered and an error shown, and no success
message. With a model of the table (`dalle3`) the same response ends with the
payload rendered and the success message only. In the same way
`generateMainImage` renders the image and then shows an error when a successful
response carries no `text_data`. -/
theorem success_rendered_and_error_shown :
    getModelInfo (selectedModel pageUnknownModel) = .undefined ∧
    ((generateAIImage refHost (.body aiImageOk)).after pageUnknownModel).events =
      [.fetch "/api/generate-ai-image-enhanced"
          (.obj [("title", .str "t"), ("content", .str "c"), ("model_id", .str "my_model"),
            ("config", .obj [("api_key", .str "k")]), ("size", .str ""), ("style", .str "")]),
        .render "aiImageResult" "aiImage" ["/ai/1.png", "my_model", "p"],
        .message "AI生成失败: TypeError" "error"] ∧
    rendered ((generateAIImage refHost (.body aiImageOk)).after pageUnknownModel) =
      ["aiImageResult"] ∧
    messagesOf "error" ((generateAIImage refHost (.body aiImageOk)).after pageUnknownModel) =
      ["AI生成失败: TypeError"] ∧
    messagesOf "success" ((generateAIImage refHost (.body aiImageOk)).after pageUnknownModel) =
      [] ∧
    rendered ((generateAIImage refHost (.body aiImageOk)).after
      { pageUnknownModel with aiModelDomestic := "dalle3" }) = ["aiImageResult"] ∧
    messagesOf "error" ((generateAIImage refHost (.body aiImageOk)).after
      { pageUnknownModel with aiModelDomestic := "dalle3" }) = [] ∧
    messagesOf "success" ((generateAIImage refHost (.body aiImageOk)).after
      { pageUnknownModel with aiModelDomestic := "dalle3" }) = ["DALL-E 3 生成成功！"] ∧
    rendered ((generateMainImage refHost (.body mainImageNoText)).after pageMainImage) =
      ["mainImagePreview"] ∧
    messagesOf "error" ((generateMainImage refHost (.body mainImageNoText)).after pageMainImage) =
      ["生成失败: TypeError"] ∧
    messagesOf "success" ((generateMainImage refHost (.body mainImageNoText)).after
      pageMainImage) = [] := by
  refine ⟨by decide, by decide, by decide, by decide, by decide, by decide, by decide, by decide,
    by decide, by decide, by decide⟩

/-! ## Forbidden-word check -/

theorem quiet_displayWordsCheckResult (h : Host) (result : JVal) :
    Js.quiet (displayWordsCheckResult h result) := by
  unfold displayWordsCheckResult
  refine Js.quiet_bind _ _ (Js.quiet_eval _) fun flag => ?_
  split
  · refine Js.quiet_bind _ _ (Js.quiet_eval _) fun words => ?_
    split
    · exact Js.quiet_bind _ _ (Js.quiet_eval _) fun _ => quiet_render _ _ _
    · exact Js.quiet_throw _
  · exact quiet_render _ _ _

/-- With a title or a content, `checkForbiddenWords` sends exactly one request,
whatever the network delivers. -/
theorem checkForbiddenWords_sends (h : Host) (net : NetResult) (s : State)
    (hne : jsTrim s.articleTitle ≠ "" ∨ jsTrim s.articleContent ≠ "") :
    requests ((checkForbiddenWords h net).after s) =
      requests s ++ [("/api/check-words", wordsRequest s)] := by
  have hn : ¬ (jsTrim s.articleTitle = "" ∧ jsTrim s.articleContent = "") := by
    rintro ⟨h1, h2⟩
    rcases hne with h3 | h3
    · exact h3 h1
    · exact h3 h2
  unfold checkForbiddenWords Js.after
  rw [Js.page_bind]
  simp only [hn, if_false]
  apply Js.requests_tryCatchFinally
  · rw [Js.update_bind]
    apply Js.requests_bind
    · exact fetchJson_requests _ _ _ _
    · intro result
      exact quiet_displayWordsCheckResult _ _
  · intro e
    exact quiet_message _ _
  · exact quiet_hideLoading

/-- With neither a title nor a content, `checkForbiddenWords` only shows an
error. -/
theorem checkForbiddenWords_empty (h : Host) (net : NetResult) (s : State)
    (ht : jsTrim s.articleTitle = "") (hc : jsTrim s.articleContent = "") :
    (checkForbiddenWords h net).after s = showMessage "请输入标题或内容后再检查" "error" s := by
  unfold checkForbiddenWords Js.after
  rw [Js.page_bind]
  simp only [ht, hc, and_self, if_true]
  rfl

/-- C12: `checkForbiddenWords` sends the request to `/api/check-words` exactly
when the trimmed title or the trimmed content is not empty; when both are empty
it only shows an error message and the request log is as it was. -/
theorem checkForbiddenWords_dispatch (h : Host) (net : NetResult) (s : State) :
    (requests ((checkForbiddenWords h net).after s) =
        requests s ++ [("/api/check-words", wordsRequest s)] ↔
      (jsTrim s.articleTitle ≠ "" ∨ jsTrim s.articleContent ≠ "")) ∧
    ((jsTrim s.articleTitle ≠ "" ∨ jsTrim s.articleContent ≠ "") ∨
      ((checkForbiddenWords h net).after s = showMessage "请输入标题或内容后再检查" "error" s ∧
        requests ((checkForbiddenWords h net).after s) = requests s ∧
        messagesOf "error" ((checkForbiddenWords h net).after s) =
          messagesOf "error" s ++ ["请输入标题或内容后再检查"])) := by
  have hRej : ¬ (jsTrim s.articleTitle ≠ "" ∨ jsTrim s.articleContent ≠ "") →
      ((checkForbiddenWords h net).after s = showMessage "请输入标题或内容后再检查" "error" s ∧
        requests ((checkForbiddenWords h net).after s) = requests s ∧
        messagesOf "error" ((checkForbiddenWords h net).after s) =
          messagesOf "error" s ++ ["请输入标题或内容后再检查"]) := by
    intro hn
    have ht : jsTrim s.articleTitle = "" := by
      by_contra ht
      exact hn (Or.inl ht)
    have hc : jsTrim s.articleContent = "" := by
      by_contra hc
      exact hn (Or.inr hc)
    rw [checkForbiddenWords_empty h net s ht hc]
    refine ⟨rfl, requests_showMessage _ _ _, ?_⟩
    simp [messagesOf, showMessage, State.emit]
  refine ⟨⟨?_, checkForbiddenWords_sends h net s⟩, ?_⟩
  · intro hsent
    by_contra hn
    rw [(hRej hn).2.1] at hsent
    simp at hsent
  · by_cases hr : jsTrim s.articleTitle ≠ "" ∨ jsTrim s.articleContent ≠ ""
    · exact Or.inl hr
    · exact Or.inr (hRej hr)

/-! ## The loading indicator -/

/-- A `try` statement whose `finally` block is `hideLoading()` ends with the
indicator hidden, whether its body throws, its handler throws, or neither. -/
theorem Js.loading_tryCatchFinally (body : Js Unit) (handler : String → Js Unit) (s : State) :
    (Js.tryCatchFinally body handler (Js.update hideLoading) s).2.loading = false := by
  unfold Js.tryCatchFinally
  rcases body s with ⟨r, s1⟩
  cases r with
  | ok u => rfl
  | error e =>
    simp only
    rcases handler e s1 with ⟨r2, s2⟩
    cases r2 with
    | ok u => rfl
    | error e2 => rfl

theorem handleTemplateUpload_hides (h : Host) (file : Option String) (net : NetResult)
    (s : State) : endsHidden (handleTemplateUpload h file net) s := by
  cases file with
  | none => exact Or.inr ⟨rfl, rfl⟩
  | some f => exact Or.inl (Js.loading_tryCatchFinally _ _ _)

theorem handleReferenceUpload_hides (h : Host) (file : Option String) (net : NetResult)
    (s : State) : endsHidden (handleReferenceUpload h file net) s := by
  cases file with
  | none => exact Or.inr ⟨rfl, rfl⟩
  | some f => exact Or.inl (Js.loading_tryCatchFinally _ _ _)

theorem checkForbiddenWords_hides (h : Host) (net : NetResult) (s : State) :
    endsHidden (checkForbiddenWords h net) s := by
  by_cases hn : jsTrim s.articleTitle = "" ∧ jsTrim s.articleContent = ""
  · right
    rw [checkForbiddenWords_empty h net s hn.1 hn.2]
    exact ⟨rfl, requests_showMessage _ _ _⟩
  · left
    unfold checkForbiddenWords Js.after
    rw [Js.page_bind]
    simp only [hn, if_false]
    exact Js.loading_tryCatchFinally _ _ _

theorem generateMainImage_hides (h : Host) (net : NetResult) (s : State) :
    endsHidden (generateMainImage h net) s := by
  by_cases hi : jsTrim s.articleTitle = "" ∨ jsTrim s.articleContent = ""
  · right
    rw [generateMainImage_incomplete h net s hi]
    exact ⟨rfl, requests_showMessage _ _ _⟩
  · have ht : jsTrim s.articleTitle ≠ "" := fun e => hi (Or.inl e)
    have hc : jsTrim s.articleContent ≠ "" := fun e => hi (Or.inr e)
    cases hu : s.uploadedTemplate.truthy
    · right
      rw [generateMainImage_no_template h net s ht hc hu]
      exact ⟨rfl, requests_showMessage _ _ _⟩
    · left
      unfold generateMainImage Js.after
      rw [Js.page_bind]
      simp only [ht, hc, or_self, if_false, hu, Bool.not_true, Bool.false_eq_true]
      exact Js.loading_tryCatchFinally _ _ _

theorem generateDetailPage_hides (h : Host) (net : NetResult) (s : State) :
    endsHidden (generateDetailPage h net) s := by
  by_cases hi : jsTrim s.articleTitle = "" ∨ jsTrim s.articleContent = ""
  · right
    unfold generateDetailPage Js.after
    rw [Js.page_bind]
    simp only [hi, if_true]
    exact ⟨rfl, requests_showMessage _ _ _⟩
  · left
    unfold generateDetailPage Js.after
    rw [Js.page_bind]
    simp only [hi, if_false]
    exact Js.loading_tryCatchFinally _ _ _

theorem generateAIImage_hides (h : Host) (net : NetResult) (s : State) :
    endsHidden (generateAIImage h net) s := by
  by_cases hi : jsTrim s.articleTitle = "" ∨ jsTrim s.articleContent = ""
  · right
    rw [generateAIImage_incomplete h net s hi]
    exact ⟨rfl, requests_showMessage _ _ _⟩
  · have ht : jsTrim s.articleTitle ≠ "" := fun e => hi (Or.inl e)
    have hc : jsTrim s.articleContent ≠ "" := fun e => hi (Or.inr e)
    by_cases hk : currentApiKey s = ""
    · right
      rw [generateAIImage_no_key h net s ht hc hk]
      exact ⟨rfl, requests_showMessage _ _ _⟩
    · left
      have hb : (JVal.str (currentApiKey s)).truthy = true := by simpa [JVal.truthy] using hk
      unfold generateAIImage Js.after
      rw [Js.page_bind]
      simp only [getCurrentApiConfig_apiKey, Js.eval_ok_bind, ht, hc, or_self, if_false, hb,
        Bool.not_true, Bool.false_eq_true]
      exact Js.loading_tryCatchFinally _ _ _

theorem saveAIImage_hides (h : Host) (imageUrl : String) (net : NetResult) (s : State) :
    endsHidden (saveAIImage h imageUrl net) s :=
  Or.inl (Js.loading_tryCatchFinally _ _ _)

theorem testApiConnection_hides (h : Host) (net : NetResult) (s : State) :
    endsHidden (testApiConnection h net) s := by
  by_cases hAcc : saveAccepts s
  · left
    obtain ⟨hm, hk⟩ := hAcc
    have hb : (JVal.str (currentApiKey s)).truthy = true := by simpa [JVal.truthy] using hk
    unfold testApiConnection Js.after
    rw [Js.page_bind]
    simp only [getCurrentApiConfig_apiKey, getCurrentApiConfig_model, Js.eval_ok_bind, hm, hb,
      Bool.not_true, Bool.false_eq_true, or_self, if_false]
    exact Js.loading_tryCatchFinally _ _ _
  · right
    have hrej : selectedModel s = "" ∨ (!(JVal.str (currentApiKey s)).truthy) = true := by
      by_cases hm : selectedModel s = ""
      · exact Or.inl hm
      · right
        have hk : currentApiKey s = "" := by
          by_contra hk
          exact hAcc ⟨hm, hk⟩
        simp [JVal.truthy, hk]
    unfold testApiConnection Js.after
    rw [Js.page_bind]
    simp only [getCurrentApiConfig_apiKey, getCurrentApiConfig_model, Js.eval_ok_bind, hrej,
      if_true]
    exact ⟨rfl, requests_showMessage _ _ _⟩

/-- C11: every request handler ends with the loading indicator hidden, whatever
the network delivers (a rejected request, a body that is not JSON, or any decoded
body, also one whose rendering throws), unless it returned before showing the
indicator, in which case the indicator is as it was and no request was sent.
The reason is the `finally` block: a `try` statement that ends in
`hideLoading()` leaves the indicator hidden for every body and every handler. -/
theorem loading_hidden_after_handler (h : Host) (net : NetResult) (file : Option String)
    (imageUrl : String) (s : State) :
    endsHidden (handleTemplateUpload h file net) s ∧
    endsHidden (handleReferenceUpload h file net) s ∧
    endsHidden (checkForbiddenWords h net) s ∧
    endsHidden (generateMainImage h net) s ∧
    endsHidden (generateDetailPage h net) s ∧
    endsHidden (generateAIImage h net) s ∧
    endsHidden (saveAIImage h imageUrl net) s ∧
    endsHidden (testApiConnection h net) s ∧
    (∀ (body : Js Unit) (handler : String → Js Unit),
      ((Js.tryCatchFinally body handler (Js.update hideLoading)).after s).loading = false) :=
  ⟨handleTemplateUpload_hides h file net s, handleReferenceUpload_hides h file net s,
    checkForbiddenWords_hides h net s, generateMainImage_hides h net s,
    generateDetailPage_hides h net s, generateAIImage_hides h net s,
    saveAIImage_hides h imageUrl net s, testApiConnection_hides h net s,
    fun body handler => Js.loading_tryCatchFinally body handler s⟩

/-! ## The active model select -/

theorem keeps_setDisplay (id value : String) : Js.keeps selects (setDisplay id value) :=
  Js.keeps_update _ _ fun _ => rfl

theorem keeps_updateApiConfigInterface (modelId : String) :
    Js.keeps selects (updateApiConfigInterface modelId) := by
  unfold updateApiConfigInterface
  split
  · exact Js.keeps_bind _ _ _ (keeps_setDisplay _ _) fun _ => keeps_setDisplay _ _
  · exact Js.keeps_bind _ _ _ (keeps_setDisplay _ _) fun _ => keeps_setDisplay _ _

theorem keeps_updateApiKeyHelp (h : Host) (modelId : String) :
    Js.keeps selects (updateApiKeyHelp h modelId) := by
  unfold updateApiKeyHelp
  dsimp only
  split
  · refine Js.keeps_bind _ _ _ (Js.keeps_eval _ _) fun name => ?_
    refine Js.keeps_bind _ _ _ (Js.keeps_update _ _ fun _ => rfl) fun _ => ?_
    refine Js.keeps_bind _ _ _ (Js.keeps_eval _ _) fun free => ?_
    exact Js.keeps_update _ _ fun _ => rfl
  · exact Js.keeps_pure _ _

theorem keeps_handleModelSelectionChange (h : Host) :
    Js.keeps selects (handleModelSelectionChange h) := by
  unfold handleModelSelectionChange
  refine Js.keeps_bind _ _ _ (Js.keeps_page _) fun p => ?_
  exact Js.keeps_bind _ _ _ (keeps_updateApiConfigInterface _) fun _ =>
    keeps_updateApiKeyHelp _ _

theorem keeps_handleModelCategoryChange (h : Host) :
    Js.keeps selects (handleModelCategoryChange h) := by
  unfold handleModelCategoryChange
  refine Js.keeps_bind _ _ _ (Js.keeps_page _) fun p => ?_
  refine Js.keeps_bind _ _ _ (keeps_setDisplay _ _) fun _ => ?_
  refine Js.keeps_bind _ _ _ (keeps_setDisplay _ _) fun _ => ?_
  refine Js.keeps_bind _ _ _ (keeps_setDisplay _ _) fun _ => ?_
  dsimp only
  split
  · exact Js.keeps_bind _ _ _ (keeps_setDisplay _ _) fun _ => keeps_handleModelSelectionChange h
  · split
    · exact Js.keeps_bind _ _ _ (keeps_setDisplay _ _) fun _ =>
        keeps_handleModelSelectionChange h
    · split
      · exact Js.keeps_bind _ _ _ (keeps_setDisplay _ _) fun _ =>
          keeps_handleModelSelectionChange h
      · exact Js.keeps_bind _ _ _ (Js.keeps_pure _ _) fun _ =>
          keeps_handleModelSelectionChange h

/-- C13: with the category `domestic`, `international` or `opensource` checked,
the model id `getCurrentApiConfig` reports is the value of the select of that
category, whatever the values of the other two selects; and
`handleModelCategoryChange` changes the value of none of the three selects, nor
the checked category. -/
theorem dispatcher_reads_active_select (h : Host) (s : State) (a b c : String) :
    (getCurrentApiConfig (withSelects s "domestic" a b c)).model = a ∧
    (getCurrentApiConfig (withSelects s "international" a b c)).model = b ∧
    (getCurrentApiConfig (withSelects s "opensource" a b c)).model = c ∧
    ((handleModelCategoryChange h).after s).aiModelDomestic = s.aiModelDomestic ∧
    ((handleModelCategoryChange h).after s).aiModelInternational = s.aiModelInternational ∧
    ((handleModelCategoryChange h).after s).aiModelOpensource = s.aiModelOpensource ∧
    ((handleModelCategoryChange h).after s).modelCategory = s.modelCategory := by
  have hk : selects ((handleModelCategoryChange h).after s) = selects s :=
    keeps_handleModelCategoryChange h s
  simp only [selects, Prod.mk.injEq] at hk
  refine ⟨?_, ?_, ?_, hk.2.1, hk.2.2.1, hk.2.2.2, hk.1⟩
  · simp [getCurrentApiConfig, selectedModel, withSelects]
  · simp [getCurrentApiConfig, selectedModel, withSelects]
  · simp [getCurrentApiConfig, selectedModel, withSelects]

/-! ## The two definitions of `validateForm` -/

/-- What the earlier `validateForm` returns and shows. -/
theorem validateFormEarlier_run (s : State) :
    validateFormEarlier s =
      if jsTrim s.articleTitle = "" then (.ok false, showMessage "请输入文章标题" "error" s)
      else if jsTrim s.articleContent = "" then
        (.ok false, showMessage "请输入文章内容" "error" s)
      else if jsLength (jsTrim s.articleTitle) > 50 then
        (.ok false, showMessage "标题长度不能超过50个字符" "error" s)
      else if jsLength (jsTrim s.articleContent) < 50 then
        (.ok false, showMessage "文章内容至少需要50个字符" "error" s)
      else (.ok true, s) := by
  unfold validateFormEarlier
  rw [Js.page_bind]
  by_cases h1 : jsTrim s.articleTitle = ""
  · simp [h1, bind, pure, message, Js.update]
  · by_cases h2 : jsTrim s.articleContent = ""
    · simp [h1, h2, bind, pure, message, Js.update]
    · by_cases h3 : jsLength (jsTrim s.articleTitle) > 50
      · simp [h1, h2, h3, bind, pure, message, Js.update]
      · by_cases h4 : jsLength (jsTrim s.articleContent) < 50
        · simp [h1, h2, h3, h4, bind, pure, message, Js.update]
        · simp [h1, h2, h3, h4, bind, pure, message, Js.update]

/-- What the later `validateForm` returns, shows and focuses. -/
theorem validateForm_run (s : State) :
    validateForm s =
      if jsTrim s.articleTitle = "" then
        (.ok false, (showMessage "请输入文章标题" "error" s).emit (.focus "articleTitle"))
      else if jsTrim s.articleContent = "" then
        (.ok false, (showMessage "请输入文章内容" "error" s).emit (.focus "articleContent"))
      else if jsLength (jsTrim s.articleTitle) > 50 then
        (.ok false, (showMessage "标题长度不能超过50个字符" "error" s).emit (.focus "articleTitle"))
      else if jsLength (jsTrim s.articleContent) < 50 then
        (.ok false,
          (showMessage "文章内容至少需要50个字符" "error" s).emit (.focus "articleContent"))
      else (.ok true, s) := by
  unfold validateForm
  rw [Js.page_bind]
  by_cases h1 : jsTrim s.articleTitle = ""
  · simp [h1, bind, pure, message, Js.update, emit]
  · by_cases h2 : jsTrim s.articleContent = ""
    · simp [h1, h2, bind, pure, message, Js.update, emit]
    · by_cases h3 : jsLength (jsTrim s.articleTitle) > 50
      · simp [h1, h2, h3, bind, pure, message, Js.update, emit]
      · by_cases h4 : jsLength (jsTrim s.articleContent) < 50
        · simp [h1, h2, h3, h4, bind, pure, message, Js.update, emit]
        · simp [h1, h2, h3, h4, bind, pure, message, Js.update, emit]

theorem messagesOf_focus (type id : String) (s : State) :
    messagesOf type (s.emit (.focus id)) = messagesOf type s := by
  simp [messagesOf, State.emit]

/-- C14: on every page the earlier and the later definition of `validateForm`
return the same boolean, without throwing, and show the same messages; the
boolean is `true` exactly when the trimmed title is not empty and has length at
most 50 and the trimmed content has length at least 50 (lengths as the property
`length` counts them); and the page the later definition leaves is the page the
earlier one leaves with at most one more effect, a focus on `articleTitle` or
`articleContent`. -/
theorem validateForm_definitions_agree (s : State) :
    (validateForm s).1 = (validateFormEarlier s).1 ∧
    (∃ b, (validateForm s).1 = .ok b) ∧
    (∀ type, messagesOf type (validateForm.after s) =
      messagesOf type (validateFormEarlier.after s)) ∧
    ((validateForm s).1 = .ok true ↔
      (jsTrim s.articleTitle ≠ "" ∧ jsLength (jsTrim s.articleTitle) ≤ 50 ∧
        50 ≤ jsLength (jsTrim s.articleContent))) ∧
    (validateForm.after s = validateFormEarlier.after s ∨
      validateForm.after s = (validateFormEarlier.after s).emit (.focus "articleTitle") ∨
      validateForm.after s = (validateFormEarlier.after s).emit (.focus "articleContent")) := by
  simp only [Js.after, validateForm_run, validateFormEarlier_run]
  by_cases h1 : jsTrim s.articleTitle = ""
  · simp [h1, messagesOf_focus]
  · by_cases h2 : jsTrim s.articleContent = ""
    · simp [h1, h2, messagesOf_focus, jsLength]
    · by_cases h3 : jsLength (jsTrim s.articleTitle) > 50
      · simp [h1, h2, h3, messagesOf_focus]
      · by_cases h4 : jsLength (jsTrim s.articleContent) < 50
        · simp [h1, h2, h3, h4, messagesOf_focus]
        · have h3le : jsLength (jsTrim s.articleTitle) ≤ 50 := Nat.le_of_not_lt h3
          have h4le : 50 ≤ jsLength (jsTrim s.articleContent) := Nat.le_of_not_lt h4
          simp [h1, h2, h3, h4, h3le, h4le]

/-! ## Draft round trip -/

/-- What `autoSaveDraft` stores when a field is not empty. -/
theorem autoSaveDraft_stores (h : Host) (now : Int) (s : State)
    (hne : s.articleTitle ≠ "" ∨ s.articleContent ≠ "") :
    ((autoSaveDraft h now).after s).localStorage =
      setItem "ecommerce_tool_draft" (h.stringify (draftOf s now)) s.localStorage := by
  simp [autoSaveDraft, Js.after, bind, Js.page, Js.update, hne, draftOf]

/-- What `loadDraft` does with a stored draft object whose title and content are
strings: the fields are filled from the non-empty ones and the message is
shown. -/
theorem loadDraft_stored (h : Host) (p : State) (text t c : String) (n : Int)
    (hStored : getItem "ecommerce_tool_draft" p.localStorage = some text) (hne : text ≠ "")
    (hParse : h.parse text =
      .ok (.obj [("title", .str t), ("content", .str c), ("timestamp", .num n)])) :
    loadDraft h p = (.ok (), showMessage "已加载上次保存的草稿" "info"
      { p with
        articleTitle := (if t = "" then p.articleTitle else t)
        articleContent := (if c = "" then p.articleContent else c) }) := by
  by_cases ht : t = "" <;> by_cases hc : c = "" <;>
    simp [loadDraft, bind, Js.page, hStored, hne, Js.tryCatch, Js.eval, hParse, JVal.get,
      lookupProp, JVal.truthy, ht, hc, Js.update, message, pure, JVal.toValue, JVal.toStr]

/-- C15: when the title and the content are not both empty, `autoSaveDraft`
followed by `loadDraft` on a page with the same local storage and empty title
and content fields puts exactly that title and that content back into the
fields, also when one of the two is empty, throws nothing and shows the
"draft loaded" message. -/
theorem draft_round_trip (h : Host) (now : Int) (s p : State)
    (hne : s.articleTitle ≠ "" ∨ s.articleContent ≠ "")
    (hRound : h.roundTrips (draftOf s now))
    (hStore : p.localStorage = ((autoSaveDraft h now).after s).localStorage)
    (hTitle : p.articleTitle = "") (hContent : p.articleContent = "") :
    (loadDraft h).escaped p = none ∧
    ((loadDraft h).after p).articleTitle = s.articleTitle ∧
    ((loadDraft h).after p).articleContent = s.articleContent ∧
    messagesOf "info" ((loadDraft h).after p) =
      messagesOf "info" p ++ ["已加载上次保存的草稿"] := by
  have hStored : getItem "ecommerce_tool_draft" p.localStorage =
      some (h.stringify (draftOf s now)) := by
    rw [hStore, autoSaveDraft_stores h now s hne, getItem_setItem_same]
  have hrun := loadDraft_stored h p _ s.articleTitle s.articleContent now hStored hRound.1
    hRound.2
  refine ⟨by simp [Js.escaped, hrun], ?_, ?_, ?_⟩
  · simp only [Js.after, hrun]
    by_cases ht : s.articleTitle = ""
    · simp [showMessage, State.emit, ht, hTitle]
    · simp [showMessage, State.emit, ht]
  · simp only [Js.after, hrun]
    by_cases hc : s.articleContent = ""
    · simp [showMessage, State.emit, hc, hContent]
    · simp [showMessage, State.emit, hc]
  · simp [Js.after, hrun, messagesOf, showMessage, State.emit]

/-- C15 on `pageTitleOnly`, saved and reloaded, with the reference host. -/
theorem draft_round_trip_witness :
    (loadDraft refHost).escaped (reloadedDraft pageTitleOnly 1700000000000) = none ∧
    ((loadDraft refHost).after (reloadedDraft pageTitleOnly 1700000000000)).articleTitle =
      pageTitleOnly.articleTitle ∧
    ((loadDraft refHost).after (reloadedDraft pageTitleOnly 1700000000000)).articleContent =
      pageTitleOnly.articleContent ∧
    messagesOf "info" ((loadDraft refHost).after (reloadedDraft pageTitleOnly 1700000000000)) =
      messagesOf "info" (reloadedDraft pageTitleOnly 1700000000000) ++
        ["已加载上次保存的草稿"] :=
  draft_round_trip refHost 1700000000000 pageTitleOnly
    (reloadedDraft pageTitleOnly 1700000000000) (by decide) ⟨by decide, by rfl⟩ rfl rfl rfl

/-! ## Template from an image URL -/

theorem splitSlash_ne_nil (cs : List Char) : splitSlash cs ≠ [] := by
  cases cs with
  | nil => simp [splitSlash]
  | cons c cs =>
    unfold splitSlash
    split
    · simp
    · split <;> simp

/-- A text that splits into one segment has no slash and is that segment. -/
theorem splitSlash_single (cs seg : List Char) (h : splitSlash cs = [seg]) :
    seg = cs ∧ '/' ∉ cs := by
  induction cs generalizing seg with
  | nil =>
    simp only [splitSlash, List.cons.injEq, and_true] at h
    simp [← h]
  | cons c cs ih =>
    unfold splitSlash at h
    by_cases hc : c = '/'
    · simp only [hc, if_true, List.cons.injEq] at h
      exact absurd h.2 (splitSlash_ne_nil cs)
    · simp only [hc, if_false] at h
      cases hs : splitSlash cs with
      | nil => exact absurd hs (splitSlash_ne_nil cs)
      | cons first rest =>
        rw [hs] at h
        simp only [List.cons.injEq] at h
        obtain ⟨h1, h2⟩ := h
        subst h2
        obtain ⟨hf, hno⟩ := ih first hs
        subst hf
        refine ⟨h1.symm, ?_⟩
        simp only [List.mem_cons, not_or]
        exact ⟨fun e => hc e.symm, hno⟩

/-- A text without a slash splits into itself. -/
theorem splitSlash_no_slash (cs : List Char) (h : '/' ∉ cs) : splitSlash cs = [cs] := by
  induction cs with
  | nil => rfl
  | cons c cs ih =>
    simp only [List.mem_cons, not_or] at h
    have hc : c ≠ '/' := fun e => h.1 e.symm
    simp [splitSlash, hc, ih h.2]

/-- The last segment of a text has no slash; it is the text itself when the text
has no slash, and otherwise the text is some prefix, a slash and the segment. -/
theorem splitSlash_last (cs : List Char) :
    '/' ∉ (splitSlash cs).getLastD [] ∧
    ((∃ pre, cs = pre ++ '/' :: (splitSlash cs).getLastD []) ∨
      ('/' ∉ cs ∧ (splitSlash cs).getLastD [] = cs)) := by
  induction cs with
  | nil => simp [splitSlash]
  | cons c cs ih =>
    obtain ⟨hno, hshape⟩ := ih
    cases hs : splitSlash cs with
    | nil => exact absurd hs (splitSlash_ne_nil cs)
    | cons first rest =>
      rw [hs] at hno hshape
      by_cases hc : c = '/'
      · have hl : (splitSlash (c :: cs)).getLastD [] = (first :: rest).getLastD [] := by
          simp [splitSlash, hc, hs, List.getLastD]
        rw [hl]
        refine ⟨hno, Or.inl ?_⟩
        rcases hshape with ⟨pre, hpre⟩ | ⟨_, hall⟩
        · exact ⟨c :: pre, by rw [hpre]; simp⟩
        · exact ⟨[], by rw [hall, hc]; simp⟩
      · cases rest with
        | nil =>
          obtain ⟨hf, hnos⟩ := splitSlash_single cs first hs
          have hl : (splitSlash (c :: cs)).getLastD [] = c :: cs := by
            simp [splitSlash, hc, hs, List.getLastD, hf]
          rw [hl]
          have hnoc : '/' ∉ c :: cs := by
            simp only [List.mem_cons, not_or]
            exact ⟨fun e => hc e.symm, hnos⟩
          exact ⟨hnoc, Or.inr ⟨hnoc, rfl⟩⟩
        | cons second more =>
          have hl : (splitSlash (c :: cs)).getLastD [] = (first :: second :: more).getLastD [] := by
            simp [splitSlash, hc, hs, List.getLastD]
          rw [hl]
          refine ⟨hno, Or.inl ?_⟩
          rcases hshape with ⟨pre, hpre⟩ | ⟨hnos, hall⟩
          · exact ⟨c :: pre, by rw [hpre]; simp⟩
          · have hone := splitSlash_no_slash cs hnos
            rw [hs] at hone
            simp at hone

/-- C17: for every image URL, `useAsTemplate` sets `uploadedTemplate` to the last
segment of the URL and leaves `uploadedReference` as it was; the segment
contains no slash, the URL ends with it, and it is the part after the last
slash: the URL is a prefix, a slash and the segment, or has no slash and is the
segment itself. Nothing is thrown and the success message is shown. -/
theorem useAsTemplate_last_segment (imageUrl : String) (s : State) :
    ((useAsTemplate imageUrl).after s).uploadedTemplate = .str (lastSegment imageUrl) ∧
    ((useAsTemplate imageUrl).after s).uploadedReference = s.uploadedReference ∧
    '/' ∉ (lastSegment imageUrl).data ∧
    (lastSegment imageUrl).data <:+ imageUrl.data ∧
    ((∃ pre, imageUrl.data = pre ++ '/' :: (lastSegment imageUrl).data) ∨
      ('/' ∉ imageUrl.data ∧ lastSegment imageUrl = imageUrl)) ∧
    (useAsTemplate imageUrl).escaped s = none ∧
    messagesOf "success" ((useAsTemplate imageUrl).after s) =
      messagesOf "success" s ++ ["已设置为主图模板"] := by
  obtain ⟨hno, hshape⟩ := splitSlash_last imageUrl.data
  refine ⟨rfl, rfl, hno, ?_, ?_, rfl, ?_⟩
  · show (splitSlash imageUrl.data).getLastD [] <:+ imageUrl.data
    rcases hshape with ⟨pre, hpre⟩ | ⟨_, hall⟩
    · exact ⟨pre ++ ['/'], by rw [List.append_assoc]; exact hpre.symm⟩
    · rw [hall]
  · rcases hshape with ⟨pre, hpre⟩ | ⟨hnos, hall⟩
    · exact Or.inl ⟨pre, hpre⟩
    · refine Or.inr ⟨hnos, ?_⟩
      show (⟨(splitSlash imageUrl.data).getLastD []⟩ : String) = imageUrl
      rw [hall]
  · simp [useAsTemplate, Js.after, bind, Js.update, message, showMessage, State.emit, messagesOf]

/-! ## Rotation -/

theorem digitChar_decimal (m : Nat) (hm : m < 10) :
    isDecimalDigit (Nat.digitChar m) = true ∧ (Nat.digitChar m).toNat - 48 = m := by
  interval_cases m <;> decide

/-- The digits `Nat.toDigitsCore` puts in front of its accumulator are decimal
digits, at least one, and denote the number. -/
theorem toDigitsCore_decimal (fuel : Nat) : ∀ (n : Nat) (ds : List Char), n < fuel →
    ∃ pre, Nat.toDigitsCore 10 fuel n ds = pre ++ ds ∧ pre ≠ [] ∧
      (∀ c ∈ pre, isDecimalDigit c = true) ∧
      ∀ init, pre.foldl (fun k d => 10 * k + (d.toNat - 48)) init = init * 10 ^ pre.length + n := by
  induction fuel with
  | zero => intro n ds hn; exact absurd hn (Nat.not_lt_zero n)
  | succ fuel ih =>
    intro n ds hn
    have hd := digitChar_decimal (n % 10) (Nat.mod_lt n (by decide))
    by_cases h0 : n / 10 = 0
    · refine ⟨[Nat.digitChar (n % 10)], by simp [Nat.toDigitsCore, h0], by simp, ?_, ?_⟩
      · intro c hc
        simp only [List.mem_singleton] at hc
        rw [hc]; exact hd.1
      · intro init
        have hlt : n < 10 := by omega
        simp only [List.foldl_cons, List.foldl_nil, List.length_singleton, pow_one, hd.2]
        omega
    · have hlt : n / 10 < fuel := by omega
      obtain ⟨pre, hpre, _, hall, hval⟩ := ih (n / 10) (Nat.digitChar (n % 10) :: ds) hlt
      refine ⟨pre ++ [Nat.digitChar (n % 10)], ?_, by simp, ?_, ?_⟩
      · simp [Nat.toDigitsCore, h0, hpre]
      · intro c hc
        simp only [List.mem_append, List.mem_singleton] at hc
        rcases hc with hc | hc
        · exact hall c hc
        · rw [hc]; exact hd.1
      · intro init
        simp only [List.foldl_append, List.foldl_cons, List.foldl_nil, hval, hd.2,
          List.length_append, List.length_singleton, pow_succ]
        have := Nat.div_add_mod n 10
        nlinarith [Nat.div_add_mod n 10]

/-- The text of a natural number is a non-empty run of decimal digits that
denotes it. -/
theorem toString_decimal (n : Nat) :
    (toString n).data ≠ [] ∧ (∀ c ∈ (toString n).data, isDecimalDigit c = true) ∧
    digitsValue (toString n).data = n := by
  obtain ⟨pre, hpre, hne, hall, hval⟩ := toDigitsCore_decimal (n + 1) n [] (Nat.lt_succ_self n)
  have hdata : (toString n).data = pre := by
    show (Nat.repr n).data = pre
    simp [Nat.repr, Nat.toDigits, hpre, List.asString]
  rw [hdata]
  refine ⟨hne, hall, ?_⟩
  have := hval 0
  simpa [digitsValue] using this

theorem afterPrefix_append (pre rest : List Char) : afterPrefix pre (pre ++ rest) = some rest := by
  induction pre with
  | nil => cases rest <;> rfl
  | cons p ps ih => simp [afterPrefix, ih]

theorem takeWhile_digits_append (ds tail : List Char)
    (hall : ∀ c ∈ ds, isDecimalDigit c = true) :
    (ds ++ 'd' :: tail).takeWhile isDecimalDigit = ds ∧
    (ds ++ 'd' :: tail).dropWhile isDecimalDigit = 'd' :: tail := by
  induction ds with
  | nil =>
    have hd : isDecimalDigit 'd' = false := by decide
    simp [List.takeWhile, List.dropWhile, hd]
  | cons c cs ih =>
    have hc : isDecimalDigit c = true := hall c (List.mem_cons_self _ _)
    have ih2 := ih fun x hx => hall x (List.mem_cons_of_mem _ hx)
    simp [List.takeWhile, List.dropWhile, hc, ih2.1, ih2.2]

/-- On the text `rotate(r deg)` the expression matches and captures the digits of
`r`. -/
theorem rotateMatch_rotateText (r : Nat) :
    rotateMatch (rotateText r).data = some (toString r).data := by
  obtain ⟨hne, hall, _⟩ := toString_decimal r
  have hdata : (rotateText r).data =
      'r' :: ("otate(".data ++ ((toString r).data ++ 'd' :: "eg)".data)) := by
    simp [rotateText, String.data_append]
  have hhere : rotateMatchHere ('r' :: ("otate(".data ++ ((toString r).data ++
      'd' :: "eg)".data))) = some (toString r).data := by
    have hpre := afterPrefix_append "rotate(".data ((toString r).data ++ 'd' :: "eg)".data)
    have htw := takeWhile_digits_append (toString r).data "eg)".data hall
    have hdeg : afterPrefix "deg)".data ('d' :: "eg)".data) = some [] := by decide
    unfold rotateMatchHere
    rw [show 'r' :: ("otate(".data ++ ((toString r).data ++ 'd' :: "eg)".data)) =
      "rotate(".data ++ ((toString r).data ++ 'd' :: "eg)".data) from rfl, hpre]
    simp only [htw.1, htw.2, hne, if_false, hdeg]
  rw [hdata, rotateMatch, hhere]

theorem toNumber_exact (n : Nat) (hn : n ≤ 2 ^ 53) : toNumber n = some n := by
  unfold toNumber
  rw [if_pos hn]

/-- The new angle for the text `rotate(r deg)`, within the range where integers
are exact. -/
theorem newRotation_rotateText (r : Nat) (hr : r + 90 ≤ 2 ^ 53) :
    newRotation (rotateText r) = some ((r + 90) % 360) := by
  have hval := (toString_decimal r).2.2
  have h1 : toNumber r = some r := toNumber_exact r (by omega)
  have h2 : toNumber (r + 90) = some (r + 90) := toNumber_exact (r + 90) hr
  simp [newRotation, rotateMatch_rotateText, parseInt, hval, h1, h2]

/-- The new angle for a text without a rotation. -/
theorem newRotation_unrotated (t : String) (ht : rotateMatch t.data = none) :
    newRotation t = some 90 := by
  have h0 : digitsValue ['0'] = 0 := by decide
  have h1 : toNumber 0 = some 0 := toNumber_exact 0 (by omega)
  have h2 : toNumber 90 = some 90 := toNumber_exact 90 (by omega)
  simp [newRotation, ht, parseInt, h0, h1, h2]

/-- What `rotateImage` writes for an image of the page. -/
theorem rotateImage_writes (imageId t : String) (s : State) (k : Nat)
    (hImg : getItem imageId s.imageTransforms = some t) (hk : newRotation t = some k) :
    (rotateImage imageId).after s =
      { s with imageTransforms := setItem imageId (rotateText k) s.imageTransforms } := by
  simp [rotateImage, Js.after, bind, Js.page, hImg, hk, Js.update, rotateText]

theorem angleOf_rotateText (r : Nat) : angleOf (rotateText r) = r := by
  simp [angleOf, rotateMatch_rotateText, (toString_decimal r).2.2]

theorem angleOf_unrotated (t : String) (ht : rotateMatch t.data = none) : angleOf t = 0 := by
  have h0 : digitsValue ['0'] = 0 := by decide
  simp [angleOf, ht, h0]

/-- Starting from an image without a rotation, the transform after `n + 1` calls
of `rotateImage` is `rotate(k deg)` with `k = 90 * (n + 1) mod 360`. -/
theorem rotateImage_iterate (imageId t : String) (s : State)
    (hImg : getItem imageId s.imageTransforms = some t) (ht : rotateMatch t.data = none)
    (n : Nat) :
    getItem imageId (Nat.iterate (rotateImage imageId).after (n + 1) s).imageTransforms =
      some (rotateText ((90 * (n + 1)) % 360)) := by
  induction n with
  | zero =>
    rw [Function.iterate_one, rotateImage_writes imageId t s 90 hImg (newRotation_unrotated t ht)]
    exact getItem_setItem_same _ _ _
  | succ n ih =>
    rw [Function.iterate_succ_apply']
    have hk := newRotation_rotateText ((90 * (n + 1)) % 360) (by
      have : (90 * (n + 1)) % 360 < 360 := Nat.mod_lt _ (by decide)
      have h53 : (450 : Nat) ≤ 2 ^ 53 := by decide
      omega)
    rw [rotateImage_writes imageId _ _ _ ih hk]
    simp only [getItem_setItem_same]
    congr 2
    omega

/-- C16 (as amended): for an image whose transform is `rotate(r deg)` with
`r + 90` at most `2 ^ 53`, the range in which the integers of JavaScript are
exact, or whose transform has no rotation (read as `r = 0`), `rotateImage` sets
the transform to `rotate(k deg)` with `k = (r + 90) mod 360`, which is below 360.
Starting from an image without a rotation, the angle read from the transform
after `n` calls is `90 * n mod 360`, the transform after `n ≥ 1` calls is
`rotate(k deg)` for that angle, and after four calls it is `rotate(0deg)`. -/
theorem rotateImage_quarter_turn (imageId t : String) (s : State) (r : Nat)
    (hImg : getItem imageId s.imageTransforms = some t)
    (hT : (t = rotateText r ∧ r + 90 ≤ 2 ^ 53) ∨ (rotateMatch t.data = none ∧ r = 0)) :
    getItem imageId ((rotateImage imageId).after s).imageTransforms =
      some (rotateText ((r + 90) % 360)) ∧
    (r + 90) % 360 < 360 ∧
    (rotateMatch t.data = none →
      (∀ n, ∃ tn,
        getItem imageId (Nat.iterate (rotateImage imageId).after n s).imageTransforms = some tn ∧
        angleOf tn = (90 * n) % 360) ∧
      (∀ n, 0 < n →
        getItem imageId (Nat.iterate (rotateImage imageId).after n s).imageTransforms =
          some (rotateText ((90 * n) % 360))) ∧
      getItem imageId (Nat.iterate (rotateImage imageId).after 4 s).imageTransforms =
        some (rotateText 0)) := by
  refine ⟨?_, Nat.mod_lt _ (by decide), ?_⟩
  · rcases hT with ⟨ht, hr⟩ | ⟨ht, hr⟩
    · subst ht
      rw [rotateImage_writes imageId _ s _ hImg (newRotation_rotateText r hr)]
      exact getItem_setItem_same _ _ _
    · subst hr
      rw [rotateImage_writes imageId _ s _ hImg (newRotation_unrotated t ht)]
      exact getItem_setItem_same _ _ _
  · intro ht
    have hpos : ∀ n, 0 < n →
        getItem imageId (Nat.iterate (rotateImage imageId).after n s).imageTransforms =
          some (rotateText ((90 * n) % 360)) := by
      intro n hn
      obtain ⟨m, rfl⟩ : ∃ m, n = m + 1 := ⟨n - 1, by omega⟩
      exact rotateImage_iterate imageId t s hImg ht m
    refine ⟨?_, hpos, hpos 4 (by decide)⟩
    intro n
    cases n with
    | zero => exact ⟨t, hImg, by simp [angleOf_unrotated t ht]⟩
    | succ m => exact ⟨_, hpos (m + 1) (Nat.succ_pos m), angleOf_rotateText _⟩

/-- C16 (as amended) on a page whose image has no rotation yet. -/
theorem rotateImage_quarter_turn_witness :
    getItem "templatePreviewImage"
        ((rotateImage "templatePreviewImage").after (pageImage "")).imageTransforms =
      some (rotateText ((0 + 90) % 360)) ∧
    (0 + 90) % 360 < 360 ∧
    (rotateMatch "".data = none →
      (∀ n, ∃ tn,
        getItem "templatePreviewImage" (Nat.iterate (rotateImage "templatePreviewImage").after n
          (pageImage "")).imageTransforms = some tn ∧
        angleOf tn = (90 * n) % 360) ∧
      (∀ n, 0 < n →
        getItem "templatePreviewImage" (Nat.iterate (rotateImage "templatePreviewImage").after n
          (pageImage "")).imageTransforms = some (rotateText ((90 * n) % 360))) ∧
      getItem "templatePreviewImage" (Nat.iterate (rotateImage "templatePreviewImage").after 4
        (pageImage "")).imageTransforms = some (rotateText 0)) :=
  rotateImage_quarter_turn "templatePreviewImage" "" (pageImage "") 0 (by decide)
    (Or.inr ⟨by decide, rfl⟩)

/-- C16 as stated fails for `r = 9007199254740993`, that is `2 ^ 53 + 1`: the
transform is `rotate(9007199254740993deg)`, `parseInt` gives the Number
9007199254740992, and `rotateImage` writes `rotate(122deg)`, where
`(r + 90) mod 360` is 123. -/
theorem rotateImage_large_angle_counterexample :
    rotateText 9007199254740993 = "rotate(9007199254740993deg)" ∧
    getItem "templatePreviewImage"
        (pageImage (rotateText 9007199254740993)).imageTransforms =
      some (rotateText 9007199254740993) ∧
    parseInt "9007199254740993".data = some 9007199254740992 ∧
    getItem "templatePreviewImage" ((rotateImage "templatePreviewImage").after
        (pageImage (rotateText 9007199254740993))).imageTransforms = some "rotate(122deg)" ∧
    rotateText ((9007199254740993 + 90) % 360) = "rotate(123deg)" ∧
    getItem "templatePreviewImage" ((rotateImage "templatePreviewImage").after
        (pageImage (rotateText 9007199254740993))).imageTransforms ≠
      some (rotateText ((9007199254740993 + 90) % 360)) := by
  refine ⟨by decide, by decide, by decide, by decide, by decide, by decide⟩

end MainJs
